import Mathlib

/-!
Shallow embedding of `src/NetworkSettings.cpp` (OpenDTU network-interface
arbitration and lifecycle controller).

The stateful core (`NetworkSettingsClass::loop` and its helpers) is embedded
as a pure step function `loopTick` on an explicit state record `St`.  External
collaborators (the WiFi/ETH stack, the DNS server, the configuration store,
the monotonic clock) are modelled as per-tick inputs; calls into them that
only produce side effects outside this core (radio mode changes, hostname and
IP application, station begin) are recorded in the state as the resulting
radio mode and as call counters.  Machine integers (`uint32_t` counters) are
Nats incremented modulo 2^32.
-/

namespace OpenDTU

/-- 2^32, the modulus of the `uint32_t` counters used in the source. -/
def U32 : Nat := 4294967296

/-- Increment of a `uint32_t` counter (`x++` in the source). -/
def u32succ (n : Nat) : Nat := (n + 1) % U32

/-- Modelled from the spec: the search-timeout constant
(`WIFI_RECONNECT_TIMEOUT`, declared in `defaults.h` which is not among the
sources); the number of seconds of continuous disconnection after which the
admin-AP controller suspends station search. -/
def WIFI_RECONNECT_TIMEOUT : Nat := 15

/-- Modelled from the spec: the redo-timeout constant
(`WIFI_RECONNECT_REDO_TIMEOUT`, declared in `defaults.h` which is not among
the sources); the number of seconds after a forced disconnect before station
search is re-enabled. -/
def WIFI_RECONNECT_REDO_TIMEOUT : Nat := 600

/-- Modelled from the spec: the network lifecycle event enum (`network_event`,
declared in `NetworkSettings.h` which is not among the sources); the values
are those used in `NetworkSettings.cpp` and described by the spec
(Started, Stopped, Connected, Disconnected, GotAddress, wildcard). -/
inductive network_event
  | NETWORK_START
  | NETWORK_STOP
  | NETWORK_CONNECTED
  | NETWORK_DISCONNECTED
  | NETWORK_GOT_IP
  | NETWORK_EVENT_MAX
deriving DecidableEq

/-- Modelled from the spec: the interface mode enum (`network_mode`, declared
in `NetworkSettings.h` which is not among the sources); values per the spec's
InterfaceMode {Undefined, WiFi, Ethernet} and their uses in the source. -/
inductive network_mode
  | Undefined
  | WiFi
  | Ethernet
deriving DecidableEq

/-- The WiFi radio mode as set through `WiFi.mode(...)` in the source:
`WIFI_MODE_NULL`, `WIFI_STA`, `WIFI_AP`, `WIFI_AP_STA`. -/
inductive wifi_mode
  | NullMode
  | STA
  | AP
  | APSTA
deriving DecidableEq

/-- An IPv4 address as four octets, as reported by `localIP()` of either
managed interface. -/
structure IPv4 where
  o0 : Nat
  o1 : Nat
  o2 : Nat
  o3 : Nat
deriving DecidableEq

/-- `NetworkSettingsClass::isConnected`: true when the first octet of the WiFi
station local IP or of the Ethernet local IP is non-zero
(`WiFi.localIP()[0] != 0 || ETH.localIP()[0] != 0`). -/
def isConnected (wifiIp ethIp : IPv4) : Bool :=
  wifiIp.o0 != 0 || ethIp.o0 != 0

/-- The configuration snapshot fields of `Configuration.get()` read by the
embedded tick: the admin-AP timeout in minutes (`config.WiFi.ApTimeout`). -/
structure Config where
  apTimeoutMinutes : Nat
deriving DecidableEq

/-- The mutable state of `NetworkSettingsClass` relevant to the tick loop,
plus ghost call counters recording how often the configuration helpers ran. -/
structure St where
  networkMode : network_mode
  ethConnected : Bool
  adminEnabled : Bool
  adminTimeoutCounter : Nat
  adminTimeoutCounterMax : Nat
  connectTimeoutTimer : Nat
  connectRedoTimer : Nat
  forceDisconnection : Bool
  wifiMode : wifi_mode
  dnsServerStatus : Bool
  applyConfigCalls : Nat
  setStaticIpCalls : Nat
  setHostnameCalls : Nat
deriving DecidableEq

/-- The per-tick inputs from external collaborators: the two interfaces' local
IPs, whether the once-per-second timer gate (`millis() - _lastTimerCall >
1000`) is open on this tick, and the configuration snapshot. -/
structure Inputs where
  wifiIp : IPv4
  ethIp : IPv4
  secondElapsed : Bool
  cfg : Config

/-- `NetworkSettingsClass::setupMode`: with admin mode enabled the radio goes
to AP+station and the captive DNS server starts; otherwise the DNS server
stops and the radio goes to station-only (WiFi mode) or off. -/
def setupMode (s : St) : St :=
  if s.adminEnabled = true then
    { s with wifiMode := wifi_mode.APSTA, dnsServerStatus := true }
  else
    { s with dnsServerStatus := false,
             wifiMode := if s.networkMode = network_mode.WiFi
                         then wifi_mode.STA else wifi_mode.NullMode }

/-- `NetworkSettingsClass::enableAdminMode`: arm the admin session (enabled,
counter zero, max = configured minutes times 60, a `uint32_t` product) and
re-run `setupMode`. -/
def enableAdminMode (cfg : Config) (s : St) : St :=
  setupMode { s with adminEnabled := true,
                     adminTimeoutCounter := 0,
                     adminTimeoutCounterMax := cfg.apTimeoutMinutes * 60 % U32 }

/-- `NetworkSettingsClass::setHostname` state effect: no-op when the mode is
Undefined; in WiFi mode the radio is toggled (`WIFI_MODE_APSTA`,
`WIFI_MODE_STA`) and then `setupMode` runs; in Ethernet mode only
`ETH.setHostname` is called.  The ghost counter records the call. -/
def setHostnameSt (s : St) : St :=
  if s.networkMode = network_mode.Undefined then s
  else if s.networkMode = network_mode.WiFi then
    setupMode { s with wifiMode := wifi_mode.STA,
                       setHostnameCalls := s.setHostnameCalls + 1 }
  else
    { s with setHostnameCalls := s.setHostnameCalls + 1 }

/-- `NetworkSettingsClass::setStaticIp` state effect: no-op when the mode is
Undefined; otherwise it only calls into the stack, recorded by the ghost
counter. -/
def setStaticIpSt (s : St) : St :=
  if s.networkMode = network_mode.Undefined then s
  else { s with setStaticIpCalls := s.setStaticIpCalls + 1 }

/-- `NetworkSettingsClass::applyConfig` state effect: `setHostname` first,
then the station credentials/IP work which only calls into the stack
(modelled action-by-action by `applyConfigActions` below); the ghost counter
records the call. -/
def applyConfigSt (s : St) : St :=
  let s1 := setHostnameSt s
  { s1 with applyConfigCalls := s1.applyConfigCalls + 1 }

/-- First section of `NetworkSettingsClass::loop`: mode arbitration.  A wired
link forces Ethernet mode (radio off, static IP, hostname); otherwise a state
other than WiFi switches to WiFi mode, re-arms admin mode and applies the
station configuration. -/
def phase1 (i : Inputs) (s : St) : St :=
  if s.ethConnected = true then
    if ¬ s.networkMode = network_mode.Ethernet then
      setHostnameSt (setStaticIpSt
        { s with networkMode := network_mode.Ethernet,
                 wifiMode := wifi_mode.NullMode })
    else s
  else
    if ¬ s.networkMode = network_mode.WiFi then
      applyConfigSt (enableAdminMode i.cfg
        { s with networkMode := network_mode.WiFi })
    else s

/-- Second section of `NetworkSettingsClass::loop`: the once-per-second timer
block; advances the admin timeout counter (only while admin mode is enabled
with a positive max) and both reconnect timers. -/
def phase2 (i : Inputs) (s : St) : St :=
  if i.secondElapsed = true then
    let s1 := if s.adminEnabled = true ∧ 0 < s.adminTimeoutCounterMax
              then { s with adminTimeoutCounter := u32succ s.adminTimeoutCounter }
              else s
    { s1 with connectTimeoutTimer := u32succ s1.connectTimeoutTimer,
              connectRedoTimer := u32succ s1.connectRedoTimer }
  else s

/-- Third section of `NetworkSettingsClass::loop`: the admin-mode block; the
disconnection grace reset, the timeout-based auto-disable, and the
reconnect-search suppression/restoration. -/
def phase3 (i : Inputs) (s : St) : St :=
  if s.adminEnabled = true then
    let s1 := if isConnected i.wifiIp i.ethIp = false
              then { s with adminTimeoutCounter := 0 } else s
    let s2 := if s1.adminTimeoutCounterMax < s1.adminTimeoutCounter
              then setupMode { s1 with adminEnabled := false } else s1
    if isConnected i.wifiIp i.ethIp = true then
      { s2 with connectTimeoutTimer := 0, connectRedoTimer := 0 }
    else
      let s3 := if WIFI_RECONNECT_TIMEOUT < s2.connectTimeoutTimer
                   ∧ s2.forceDisconnection = false
                then { s2 with wifiMode := wifi_mode.AP,
                               connectRedoTimer := 0,
                               forceDisconnection := true }
                else s2
      if WIFI_RECONNECT_REDO_TIMEOUT < s3.connectRedoTimer
         ∧ s3.forceDisconnection = true then
        let s4 := applyConfigSt { s3 with wifiMode := wifi_mode.APSTA }
        { s4 with connectTimeoutTimer := 0, forceDisconnection := false }
      else s3
  else s

/-- One call of `NetworkSettingsClass::loop`.  The trailing DNS dispatch and
mDNS reconciliation only call external collaborators and change none of the
modelled fields. -/
def loopTick (i : Inputs) (s : St) : St :=
  phase3 i (phase2 i (phase1 i s))

/-- Iterated ticks: `runF ins s n` is the state after ticks with inputs
`ins 0`, `ins 1`, …, `ins (n-1)`. -/
def runF (ins : Nat → Inputs) (s : St) : Nat → St
  | 0 => s
  | n + 1 => loopTick (ins n) (runF ins s n)

/-! ## Event bus (`onEvent` / `raiseEvent`)

Callbacks are identified by a `Nat`; a null `std::function` is `none`. -/

/-- One entry of `_cbEventList` (`DtuNetworkEventCbList_t`): a callback and
its event filter. -/
structure Subscription where
  cb : Option Nat
  event : network_event
deriving DecidableEq

/-- `NetworkSettingsClass::onEvent`: reject a null callback with `pdFALSE`
and an unchanged list, otherwise append the subscription and return true. -/
def onEvent (cbEvent : Option Nat) (event : network_event)
    (subs : List Subscription) : Bool × List Subscription :=
  match cbEvent with
  | none => (false, subs)
  | some _ => (true, subs ++ [⟨cbEvent, event⟩])

/-- `NetworkSettingsClass::raiseEvent`: walk the subscription list in order
and invoke every non-null callback whose filter equals the event or is the
wildcard `NETWORK_EVENT_MAX`.  The result is the list of invocations
(callback identity, delivered event) in invocation order. -/
def raiseEvent (subs : List Subscription) (event : network_event) :
    List (Nat × network_event) :=
  subs.filterMap fun entry =>
    match entry.cb with
    | none => none
    | some c =>
        if entry.event = event ∨ entry.event = network_event.NETWORK_EVENT_MAX
        then some (c, event) else none

/-- All invocations produced by publishing a sequence of events, in publish
order. -/
def publishSeq (subs : List Subscription) (events : List network_event) :
    List (Nat × network_event) :=
  (events.map (raiseEvent subs)).flatten

/-- The events received by the callback `c` over a publish sequence, in
order. -/
def receivedBy (c : Nat) (subs : List Subscription)
    (events : List network_event) : List network_event :=
  (publishSeq subs events).filterMap fun p =>
    if p.1 = c then some p.2 else none

/-! ## `applyConfig` at the level of calls into the WiFi stack -/

/-- The externally visible calls `NetworkSettingsClass::applyConfig` can make
into this core and the WiFi stack. -/
inductive ConfigAction
  | setHostname
  | wifiBeginNew (ssid password : String)
  | wifiBeginExisting
  | setStaticIp
deriving DecidableEq

/-- The station-relevant configuration snapshot read by `applyConfig`. -/
structure WifiConfig where
  ssid : String
  password : String
deriving DecidableEq

/-- The credentials currently held by the WiFi stack (`WiFi.SSID()`,
`WiFi.psk()`). -/
structure WifiCred where
  ssid : String
  psk : String
deriving DecidableEq

/-- `NetworkSettingsClass::applyConfig` as its sequence of calls: hostname
first; an empty configured SSID returns immediately; otherwise station begin
(with new credentials when SSID or password differ from the stack's) followed
by the IP configuration. -/
def applyConfigActions (config : WifiConfig) (cur : WifiCred) :
    List ConfigAction :=
  ConfigAction.setHostname ::
    (if config.ssid = "" then []
     else
       (if ¬ (cur.ssid = config.ssid ∧ cur.psk = config.password)
        then ConfigAction.wifiBeginNew config.ssid config.password
        else ConfigAction.wifiBeginExisting)
       :: [ConfigAction.setStaticIp])

/-! ## Hostname construction (`getHostname`) -/

/-- Modelled from the spec: the maximum hostname length constant
(`WIFI_MAX_HOSTNAME_STRLEN`, declared in `defaults.h` which is not among the
sources). -/
def WIFI_MAX_HOSTNAME_STRLEN : Nat := 24

/-- The per-character rule of the `getHostname` sanitization loop: keep
alphanumeric characters (`isalnum`), map the seven separator characters to a
hyphen, drop everything else. -/
def keepChar (c : Char) : Option Char :=
  if c.isAlphanum then some c
  else if c = ' ' ∨ c = '_' ∨ c = '-' ∨ c = '+' ∨ c = '!' ∨ c = '?' ∨ c = '*'
  then some '-'
  else none

/-- The `getHostname` sanitization loop: walk the prepared hostname while the
output position is below `maxLen`, applying `keepChar`. -/
def sanitizeAux (maxLen : Nat) : List Char → Nat → List Char
  | [], _ => []
  | c :: cs, pos =>
      if pos < maxLen then
        match keepChar c with
        | some d => d :: sanitizeAux maxLen cs (pos + 1)
        | none => sanitizeAux maxLen cs pos
      else []

/-- The trailing-hyphen stripping loop of `getHostname` ("last character must
not be hyphen"). -/
def stripTrailingHyphens (l : List Char) : List Char :=
  ((l.reverse.dropWhile fun c => c = '-')).reverse

/-- The hexadecimal digit characters used by `%X` formatting. -/
def hexDigitChar (n : Nat) : Char :=
  "0123456789ABCDEF".toList.getD n '0'

/-- Fuel-driven most-significant-first base-16 digit expansion. -/
def toHexAux : Nat → Nat → List Char
  | 0, _ => []
  | fuel + 1, n =>
      if n = 0 then [] else toHexAux fuel (n / 16) ++ [hexDigitChar (n % 16)]

/-- Uppercase hexadecimal digits of `n` (at least one digit). -/
def toHexUpper (n : Nat) : List Char :=
  if n = 0 then ['0'] else toHexAux (n + 1) n

/-- Left-pad with `'0'` to width `w` (printf zero padding). -/
def padLeftZeros (w : Nat) (l : List Char) : List Char :=
  List.replicate (w - l.length) '0' ++ l

/-- Modelled from the spec: the default hostname fallback
(`snprintf(..., APP_HOSTNAME, chipId)`; `APP_HOSTNAME` is declared in
`defaults.h` which is not among the sources) — the default template with the
chip id substituted as six-wide zero-padded uppercase hex, truncated by
`snprintf` to `WIFI_MAX_HOSTNAME_STRLEN` characters. -/
def fallbackHostname (chipId : Nat) : String :=
  String.mk (("OpenDTU-".toList ++ padLeftZeros 6 (toHexUpper chipId)).take
    WIFI_MAX_HOSTNAME_STRLEN)

/-- `NetworkSettingsClass::getHostname`, taking as input the
template-substituted hostname (the `snprintf` of the configured template and
the chip id, truncated to `WIFI_MAX_HOSTNAME_STRLEN` characters) and the chip
id used by the fallback. -/
def getHostname (prepared : String) (chipId : Nat) : String :=
  let truncated := prepared.toList.take WIFI_MAX_HOSTNAME_STRLEN
  let r := stripTrailingHyphens (sanitizeAux WIFI_MAX_HOSTNAME_STRLEN truncated 0)
  if r = [] then fallbackHostname chipId else String.mk r

/-- Written from the spec's words (§4.5): keep alphanumeric characters; map
space/underscore/hyphen/plus/exclamation/question/asterisk to a single
hyphen; drop all other characters. -/
def specKeep (c : Char) : Option Char :=
  if c.isAlphanum then some c
  else if c ∈ [' ', '_', '-', '+', '!', '?', '*'] then some '-'
  else none

/-- Written from the spec's words: sanitize the (truncated)
template-substituted hostname character by character, strip trailing hyphens,
and fall back to the default template when the result is empty. -/
def hostnameSpec (prepared : String) (chipId : Nat) : String :=
  let r := stripTrailingHyphens
    ((prepared.toList.take WIFI_MAX_HOSTNAME_STRLEN).filterMap specKeep)
  if r = [] then fallbackHostname chipId else String.mk r

/-! ## Projection lemmas for the state helpers -/

@[simp] theorem setupMode_networkMode (s : St) :
    (setupMode s).networkMode = s.networkMode := by
  unfold setupMode; split <;> rfl

@[simp] theorem setupMode_ethConnected (s : St) :
    (setupMode s).ethConnected = s.ethConnected := by
  unfold setupMode; split <;> rfl

@[simp] theorem setupMode_adminEnabled (s : St) :
    (setupMode s).adminEnabled = s.adminEnabled := by
  unfold setupMode; split <;> rfl

@[simp] theorem setupMode_adminTimeoutCounter (s : St) :
    (setupMode s).adminTimeoutCounter = s.adminTimeoutCounter := by
  unfold setupMode; split <;> rfl

@[simp] theorem setupMode_adminTimeoutCounterMax (s : St) :
    (setupMode s).adminTimeoutCounterMax = s.adminTimeoutCounterMax := by
  unfold setupMode; split <;> rfl

@[simp] theorem setupMode_connectTimeoutTimer (s : St) :
    (setupMode s).connectTimeoutTimer = s.connectTimeoutTimer := by
  unfold setupMode; split <;> rfl

@[simp] theorem setupMode_connectRedoTimer (s : St) :
    (setupMode s).connectRedoTimer = s.connectRedoTimer := by
  unfold setupMode; split <;> rfl

@[simp] theorem setupMode_forceDisconnection (s : St) :
    (setupMode s).forceDisconnection = s.forceDisconnection := by
  unfold setupMode; split <;> rfl

@[simp] theorem setupMode_applyConfigCalls (s : St) :
    (setupMode s).applyConfigCalls = s.applyConfigCalls := by
  unfold setupMode; split <;> rfl

theorem setupMode_wifiMode (s : St) :
    (setupMode s).wifiMode =
      if s.adminEnabled = true then wifi_mode.APSTA
      else if s.networkMode = network_mode.WiFi then wifi_mode.STA
      else wifi_mode.NullMode := by
  unfold setupMode; split <;> rfl

@[simp] theorem setHostnameSt_networkMode (s : St) :
    (setHostnameSt s).networkMode = s.networkMode := by
  unfold setHostnameSt; split_ifs <;> simp

@[simp] theorem setHostnameSt_ethConnected (s : St) :
    (setHostnameSt s).ethConnected = s.ethConnected := by
  unfold setHostnameSt; split_ifs <;> simp

@[simp] theorem setHostnameSt_adminEnabled (s : St) :
    (setHostnameSt s).adminEnabled = s.adminEnabled := by
  unfold setHostnameSt; split_ifs <;> simp

@[simp] theorem setHostnameSt_adminTimeoutCounter (s : St) :
    (setHostnameSt s).adminTimeoutCounter = s.adminTimeoutCounter := by
  unfold setHostnameSt; split_ifs <;> simp

@[simp] theorem setHostnameSt_adminTimeoutCounterMax (s : St) :
    (setHostnameSt s).adminTimeoutCounterMax = s.adminTimeoutCounterMax := by
  unfold setHostnameSt; split_ifs <;> simp

@[simp] theorem setHostnameSt_connectTimeoutTimer (s : St) :
    (setHostnameSt s).connectTimeoutTimer = s.connectTimeoutTimer := by
  unfold setHostnameSt; split_ifs <;> simp

@[simp] theorem setHostnameSt_connectRedoTimer (s : St) :
    (setHostnameSt s).connectRedoTimer = s.connectRedoTimer := by
  unfold setHostnameSt; split_ifs <;> simp

@[simp] theorem setHostnameSt_forceDisconnection (s : St) :
    (setHostnameSt s).forceDisconnection = s.forceDisconnection := by
  unfold setHostnameSt; split_ifs <;> simp

@[simp] theorem setHostnameSt_applyConfigCalls (s : St) :
    (setHostnameSt s).applyConfigCalls = s.applyConfigCalls := by
  unfold setHostnameSt; split_ifs <;> simp

theorem setHostnameSt_wifiMode_of_wifi_admin (s : St)
    (hm : s.networkMode = network_mode.WiFi) (ha : s.adminEnabled = true) :
    (setHostnameSt s).wifiMode = wifi_mode.APSTA := by
  unfold setHostnameSt
  rw [if_neg (by rw [hm]; intro hx; cases hx), if_pos hm, setupMode_wifiMode]
  simp [ha]

@[simp] theorem setStaticIpSt_networkMode (s : St) :
    (setStaticIpSt s).networkMode = s.networkMode := by
  unfold setStaticIpSt; split_ifs <;> rfl

@[simp] theorem setStaticIpSt_ethConnected (s : St) :
    (setStaticIpSt s).ethConnected = s.ethConnected := by
  unfold setStaticIpSt; split_ifs <;> rfl

@[simp] theorem setStaticIpSt_adminEnabled (s : St) :
    (setStaticIpSt s).adminEnabled = s.adminEnabled := by
  unfold setStaticIpSt; split_ifs <;> rfl

@[simp] theorem setStaticIpSt_adminTimeoutCounter (s : St) :
    (setStaticIpSt s).adminTimeoutCounter = s.adminTimeoutCounter := by
  unfold setStaticIpSt; split_ifs <;> rfl

@[simp] theorem setStaticIpSt_adminTimeoutCounterMax (s : St) :
    (setStaticIpSt s).adminTimeoutCounterMax = s.adminTimeoutCounterMax := by
  unfold setStaticIpSt; split_ifs <;> rfl

@[simp] theorem setStaticIpSt_connectTimeoutTimer (s : St) :
    (setStaticIpSt s).connectTimeoutTimer = s.connectTimeoutTimer := by
  unfold setStaticIpSt; split_ifs <;> rfl

@[simp] theorem setStaticIpSt_connectRedoTimer (s : St) :
    (setStaticIpSt s).connectRedoTimer = s.connectRedoTimer := by
  unfold setStaticIpSt; split_ifs <;> rfl

@[simp] theorem setStaticIpSt_forceDisconnection (s : St) :
    (setStaticIpSt s).forceDisconnection = s.forceDisconnection := by
  unfold setStaticIpSt; split_ifs <;> rfl

@[simp] theorem setStaticIpSt_applyConfigCalls (s : St) :
    (setStaticIpSt s).applyConfigCalls = s.applyConfigCalls := by
  unfold setStaticIpSt; split_ifs <;> rfl

@[simp] theorem setStaticIpSt_wifiMode (s : St) :
    (setStaticIpSt s).wifiMode = s.wifiMode := by
  unfold setStaticIpSt; split_ifs <;> rfl

@[simp] theorem applyConfigSt_networkMode (s : St) :
    (applyConfigSt s).networkMode = s.networkMode := by
  unfold applyConfigSt; simp

@[simp] theorem applyConfigSt_ethConnected (s : St) :
    (applyConfigSt s).ethConnected = s.ethConnected := by
  unfold applyConfigSt; simp

@[simp] theorem applyConfigSt_adminEnabled (s : St) :
    (applyConfigSt s).adminEnabled = s.adminEnabled := by
  unfold applyConfigSt; simp

@[simp] theorem applyConfigSt_adminTimeoutCounter (s : St) :
    (applyConfigSt s).adminTimeoutCounter = s.adminTimeoutCounter := by
  unfold applyConfigSt; simp

@[simp] theorem applyConfigSt_adminTimeoutCounterMax (s : St) :
    (applyConfigSt s).adminTimeoutCounterMax = s.adminTimeoutCounterMax := by
  unfold applyConfigSt; simp

@[simp] theorem applyConfigSt_connectTimeoutTimer (s : St) :
    (applyConfigSt s).connectTimeoutTimer = s.connectTimeoutTimer := by
  unfold applyConfigSt; simp

@[simp] theorem applyConfigSt_connectRedoTimer (s : St) :
    (applyConfigSt s).connectRedoTimer = s.connectRedoTimer := by
  unfold applyConfigSt; simp

@[simp] theorem applyConfigSt_forceDisconnection (s : St) :
    (applyConfigSt s).forceDisconnection = s.forceDisconnection := by
  unfold applyConfigSt; simp

@[simp] theorem applyConfigSt_applyConfigCalls (s : St) :
    (applyConfigSt s).applyConfigCalls = s.applyConfigCalls + 1 := by
  unfold applyConfigSt; simp

theorem applyConfigSt_wifiMode_of_wifi_admin (s : St)
    (hm : s.networkMode = network_mode.WiFi) (ha : s.adminEnabled = true) :
    (applyConfigSt s).wifiMode = wifi_mode.APSTA := by
  unfold applyConfigSt
  exact setHostnameSt_wifiMode_of_wifi_admin s hm ha

@[simp] theorem enableAdminMode_networkMode (cfg : Config) (s : St) :
    (enableAdminMode cfg s).networkMode = s.networkMode := by
  unfold enableAdminMode; simp

@[simp] theorem enableAdminMode_ethConnected (cfg : Config) (s : St) :
    (enableAdminMode cfg s).ethConnected = s.ethConnected := by
  unfold enableAdminMode; simp

@[simp] theorem enableAdminMode_adminEnabled (cfg : Config) (s : St) :
    (enableAdminMode cfg s).adminEnabled = true := by
  unfold enableAdminMode; simp

@[simp] theorem enableAdminMode_adminTimeoutCounter (cfg : Config) (s : St) :
    (enableAdminMode cfg s).adminTimeoutCounter = 0 := by
  unfold enableAdminMode; simp

@[simp] theorem enableAdminMode_adminTimeoutCounterMax (cfg : Config) (s : St) :
    (enableAdminMode cfg s).adminTimeoutCounterMax
      = cfg.apTimeoutMinutes * 60 % U32 := by
  unfold enableAdminMode; simp

@[simp] theorem enableAdminMode_connectTimeoutTimer (cfg : Config) (s : St) :
    (enableAdminMode cfg s).connectTimeoutTimer = s.connectTimeoutTimer := by
  unfold enableAdminMode; simp

@[simp] theorem enableAdminMode_connectRedoTimer (cfg : Config) (s : St) :
    (enableAdminMode cfg s).connectRedoTimer = s.connectRedoTimer := by
  unfold enableAdminMode; simp

@[simp] theorem enableAdminMode_forceDisconnection (cfg : Config) (s : St) :
    (enableAdminMode cfg s).forceDisconnection = s.forceDisconnection := by
  unfold enableAdminMode; simp

@[simp] theorem enableAdminMode_applyConfigCalls (cfg : Config) (s : St) :
    (enableAdminMode cfg s).applyConfigCalls = s.applyConfigCalls := by
  unfold enableAdminMode; simp

/-! ## Phase-level lemmas -/

theorem phase1_networkMode (i : Inputs) (s : St) :
    (phase1 i s).networkMode =
      if s.ethConnected = true then network_mode.Ethernet
      else network_mode.WiFi := by
  unfold phase1; split_ifs <;> simp_all

@[simp] theorem phase1_ethConnected (i : Inputs) (s : St) :
    (phase1 i s).ethConnected = s.ethConnected := by
  unfold phase1; split_ifs <;> simp

theorem phase2_networkMode (i : Inputs) (s : St) :
    (phase2 i s).networkMode = s.networkMode := by
  unfold phase2; split_ifs <;> simp

theorem phase3_networkMode (i : Inputs) (s : St) :
    (phase3 i s).networkMode = s.networkMode := by
  unfold phase3
  split_ifs <;> simp_all <;> split_ifs <;> simp

@[simp] theorem phase2_ethConnected (i : Inputs) (s : St) :
    (phase2 i s).ethConnected = s.ethConnected := by
  unfold phase2; split_ifs <;> simp

@[simp] theorem phase2_adminEnabled (i : Inputs) (s : St) :
    (phase2 i s).adminEnabled = s.adminEnabled := by
  unfold phase2; split_ifs <;> simp

@[simp] theorem phase2_adminTimeoutCounterMax (i : Inputs) (s : St) :
    (phase2 i s).adminTimeoutCounterMax = s.adminTimeoutCounterMax := by
  unfold phase2; split_ifs <;> simp

@[simp] theorem phase2_forceDisconnection (i : Inputs) (s : St) :
    (phase2 i s).forceDisconnection = s.forceDisconnection := by
  unfold phase2; split_ifs <;> simp

@[simp] theorem phase2_wifiMode (i : Inputs) (s : St) :
    (phase2 i s).wifiMode = s.wifiMode := by
  unfold phase2; split_ifs <;> simp

@[simp] theorem phase2_applyConfigCalls (i : Inputs) (s : St) :
    (phase2 i s).applyConfigCalls = s.applyConfigCalls := by
  unfold phase2; split_ifs <;> simp

theorem phase2_second (i : Inputs) (s : St) (hs : i.secondElapsed = true)
    (ha : s.adminEnabled = true) (hm : 0 < s.adminTimeoutCounterMax) :
    phase2 i s = { s with
      adminTimeoutCounter := u32succ s.adminTimeoutCounter,
      connectTimeoutTimer := u32succ s.connectTimeoutTimer,
      connectRedoTimer := u32succ s.connectRedoTimer } := by
  unfold phase2
  rw [if_pos hs, if_pos ⟨ha, hm⟩]

theorem phase2_second_noCount (i : Inputs) (s : St) (hs : i.secondElapsed = true)
    (h : ¬ (s.adminEnabled = true ∧ 0 < s.adminTimeoutCounterMax)) :
    phase2 i s = { s with
      connectTimeoutTimer := u32succ s.connectTimeoutTimer,
      connectRedoTimer := u32succ s.connectRedoTimer } := by
  unfold phase2
  rw [if_pos hs, if_neg h]

theorem phase2_noSecond (i : Inputs) (s : St) (hs : i.secondElapsed = false) :
    phase2 i s = s := by
  unfold phase2
  rw [if_neg (by simp [hs])]

theorem phase1_of_wifi (i : Inputs) (s : St) (h1 : s.ethConnected = false)
    (h2 : s.networkMode = network_mode.WiFi) : phase1 i s = s := by
  unfold phase1
  rw [if_neg (by simp [h1]), if_neg (by simp [h2])]

theorem phase1_adminEnabled_preserved (i : Inputs) (s : St)
    (h : s.adminEnabled = true) : (phase1 i s).adminEnabled = true := by
  unfold phase1; split_ifs <;> simp [h]

theorem phase1_admin_zero (i : Inputs) (s : St) (h : s.adminEnabled = true)
    (hc : s.adminTimeoutCounter = 0) (hm : s.adminTimeoutCounterMax = 0)
    (hcfg : i.cfg.apTimeoutMinutes = 0) :
    (phase1 i s).adminEnabled = true ∧
      (phase1 i s).adminTimeoutCounter = 0 ∧
      (phase1 i s).adminTimeoutCounterMax = 0 := by
  unfold phase1; split_ifs <;> simp [h, hc, hm, hcfg]

theorem phase3_not_admin (i : Inputs) (s : St) (h : s.adminEnabled = false) :
    phase3 i s = s := by
  unfold phase3
  rw [if_neg (by simp [h])]

theorem phase3_connected_admin_le (i : Inputs) (s : St)
    (h : s.adminEnabled = true) (hc : isConnected i.wifiIp i.ethIp = true)
    (hle : s.adminTimeoutCounter ≤ s.adminTimeoutCounterMax) :
    phase3 i s = { s with connectTimeoutTimer := 0, connectRedoTimer := 0 } := by
  unfold phase3
  have hcd : ¬ isConnected i.wifiIp i.ethIp = false := by simp [hc]
  have hno : ¬ s.adminTimeoutCounterMax < s.adminTimeoutCounter := by omega
  rw [if_pos h, if_neg hcd]
  dsimp only
  rw [if_neg hno, if_pos hc]

theorem phase3_connected_admin_gt (i : Inputs) (s : St)
    (h : s.adminEnabled = true) (hc : isConnected i.wifiIp i.ethIp = true)
    (hgt : s.adminTimeoutCounterMax < s.adminTimeoutCounter) :
    phase3 i s = { setupMode { s with adminEnabled := false } with
      connectTimeoutTimer := 0, connectRedoTimer := 0 } := by
  unfold phase3
  have hcd : ¬ isConnected i.wifiIp i.ethIp = false := by simp [hc]
  rw [if_pos h, if_neg hcd]
  dsimp only
  rw [if_pos hgt, if_pos hc]

theorem phase3_disc_noFire (i : Inputs) (s : St)
    (h : s.adminEnabled = true) (hd : isConnected i.wifiIp i.ethIp = false)
    (hb1 : ¬ (WIFI_RECONNECT_TIMEOUT < s.connectTimeoutTimer ∧
              s.forceDisconnection = false))
    (hb2 : ¬ (WIFI_RECONNECT_REDO_TIMEOUT < s.connectRedoTimer ∧
              s.forceDisconnection = true)) :
    phase3 i s = { s with adminTimeoutCounter := 0 } := by
  unfold phase3
  have hct : ¬ isConnected i.wifiIp i.ethIp = true := by simp [hd]
  rw [if_pos h, if_pos hd]
  dsimp only
  rw [if_neg (Nat.not_lt_zero _), if_neg hct]
  dsimp only
  rw [if_neg hb1]
  dsimp only
  rw [if_neg hb2]

theorem phase3_disc_fire1 (i : Inputs) (s : St)
    (h : s.adminEnabled = true) (hd : isConnected i.wifiIp i.ethIp = false)
    (hf : s.forceDisconnection = false)
    (ht : WIFI_RECONNECT_TIMEOUT < s.connectTimeoutTimer) :
    phase3 i s = { s with
      adminTimeoutCounter := 0, wifiMode := wifi_mode.AP,
      connectRedoTimer := 0, forceDisconnection := true } := by
  unfold phase3
  have hct : ¬ isConnected i.wifiIp i.ethIp = true := by simp [hd]
  rw [if_pos h, if_pos hd]
  dsimp only
  rw [if_neg (Nat.not_lt_zero _), if_neg hct]
  dsimp only
  have hb1 : WIFI_RECONNECT_TIMEOUT < s.connectTimeoutTimer ∧
      s.forceDisconnection = false := ⟨ht, hf⟩
  rw [if_pos hb1]
  dsimp only
  rw [if_neg (by simp [WIFI_RECONNECT_REDO_TIMEOUT])]

theorem phase3_disc_fire2 (i : Inputs) (s : St)
    (h : s.adminEnabled = true) (hd : isConnected i.wifiIp i.ethIp = false)
    (hf : s.forceDisconnection = true)
    (hr : WIFI_RECONNECT_REDO_TIMEOUT < s.connectRedoTimer) :
    phase3 i s = { applyConfigSt { s with
        adminTimeoutCounter := 0, wifiMode := wifi_mode.APSTA } with
      connectTimeoutTimer := 0, forceDisconnection := false } := by
  unfold phase3
  have hct : ¬ isConnected i.wifiIp i.ethIp = true := by simp [hd]
  rw [if_pos h, if_pos hd]
  dsimp only
  rw [if_neg (Nat.not_lt_zero _), if_neg hct]
  dsimp only
  have hb1 : ¬ (WIFI_RECONNECT_TIMEOUT < s.connectTimeoutTimer ∧
      s.forceDisconnection = false) := by simp [hf]
  rw [if_neg hb1]
  dsimp only
  have hb2 : WIFI_RECONNECT_REDO_TIMEOUT < s.connectRedoTimer ∧
      s.forceDisconnection = true := ⟨hr, hf⟩
  rw [if_pos hb2]

theorem phase3_disconnected_admin (i : Inputs) (s : St)
    (h : s.adminEnabled = true)
    (hd : isConnected i.wifiIp i.ethIp = false) :
    (phase3 i s).adminEnabled = true ∧
      (phase3 i s).adminTimeoutCounter = 0 ∧
      (phase3 i s).adminTimeoutCounterMax = s.adminTimeoutCounterMax := by
  by_cases hf : s.forceDisconnection = true
  · by_cases hr : WIFI_RECONNECT_REDO_TIMEOUT < s.connectRedoTimer
    · rw [phase3_disc_fire2 i s h hd hf hr]
      simp [h]
    · rw [phase3_disc_noFire i s h hd (by simp [hf]) (by tauto)]
      exact ⟨h, rfl, rfl⟩
  · have hf' : s.forceDisconnection = false := by simpa using hf
    by_cases ht : WIFI_RECONNECT_TIMEOUT < s.connectTimeoutTimer
    · rw [phase3_disc_fire1 i s h hd hf' ht]
      exact ⟨h, rfl, rfl⟩
    · rw [phase3_disc_noFire i s h hd (by tauto) (by simp [hf'])]
      exact ⟨h, rfl, rfl⟩

theorem phase3_admin_counter0 (i : Inputs) (s : St)
    (h : s.adminEnabled = true) (hc : s.adminTimeoutCounter = 0) :
    (phase3 i s).adminEnabled = true ∧
      (phase3 i s).adminTimeoutCounter = 0 ∧
      (phase3 i s).adminTimeoutCounterMax = s.adminTimeoutCounterMax := by
  by_cases hcon : isConnected i.wifiIp i.ethIp = true
  · rw [phase3_connected_admin_le i s h hcon (by omega)]
    exact ⟨h, hc, rfl⟩
  · have hd : isConnected i.wifiIp i.ethIp = false := by simpa using hcon
    exact phase3_disconnected_admin i s h hd

/-! ## Claim theorems -/

/-- Claim C1: after any tick on whose entry the wired-link flag
(`_ethConnected`) is true, the interface mode is Ethernet and hence never
WiFi; a wired link being up on entry to a tick forces the mode to Ethernet
by the end of that tick. -/
theorem C1_wired_link_forces_ethernet (i : Inputs) (s : St)
    (h : s.ethConnected = true) :
    (loopTick i s).networkMode = network_mode.Ethernet ∧
      ¬ (loopTick i s).networkMode = network_mode.WiFi := by
  have hmain : (loopTick i s).networkMode = network_mode.Ethernet := by
    unfold loopTick
    rw [phase3_networkMode, phase2_networkMode, phase1_networkMode, if_pos h]
  refine ⟨hmain, ?_⟩
  rw [hmain]
  intro hcontra
  cases hcontra

/-- Witness for C1 at a concrete state. -/
theorem C1_wired_link_forces_ethernet_witness :
    (loopTick ⟨⟨0, 0, 0, 0⟩, ⟨0, 0, 0, 0⟩, true, ⟨1⟩⟩
        ⟨network_mode.WiFi, true, false, 0, 0, 0, 0, false, wifi_mode.STA,
          false, 0, 0, 0⟩).networkMode = network_mode.Ethernet ∧
      ¬ (loopTick ⟨⟨0, 0, 0, 0⟩, ⟨0, 0, 0, 0⟩, true, ⟨1⟩⟩
        ⟨network_mode.WiFi, true, false, 0, 0, 0, 0, false, wifi_mode.STA,
          false, 0, 0, 0⟩).networkMode = network_mode.WiFi :=
  C1_wired_link_forces_ethernet _ _ rfl

/-- Claim C2 (counterexample): `isConnected` compares only the first octet of
each local IP with zero, so with the WiFi station at `0.0.0.1` (a non-zero
address) and Ethernet at `0.0.0.0` it returns false, although one managed
interface reports a non-zero local IP address. -/
theorem C2_counterexample :
    ¬ (isConnected ⟨0, 0, 0, 1⟩ ⟨0, 0, 0, 0⟩ = true ↔
        ((⟨0, 0, 0, 1⟩ : IPv4) ≠ ⟨0, 0, 0, 0⟩ ∨
         (⟨0, 0, 0, 0⟩ : IPv4) ≠ ⟨0, 0, 0, 0⟩)) := by
  decide

/-- Claim C2 (amended): `isConnected()` returns true if and only if at least
one of the two managed interfaces reports a local IP address whose first
octet is non-zero, for every possible pair of reported addresses. -/
theorem C2_isConnected_first_octet (wifiIp ethIp : IPv4) :
    isConnected wifiIp ethIp = true ↔ (wifiIp.o0 ≠ 0 ∨ ethIp.o0 ≠ 0) := by
  simp [isConnected]

/-- One disconnected tick keeps admin mode enabled and leaves the timeout
counter reset to zero. -/
theorem loopTick_admin_disconnected (i : Inputs) (s : St)
    (h : s.adminEnabled = true)
    (hd : isConnected i.wifiIp i.ethIp = false) :
    (loopTick i s).adminEnabled = true ∧
      (loopTick i s).adminTimeoutCounter = 0 := by
  unfold loopTick
  have h1 : (phase2 i (phase1 i s)).adminEnabled = true := by
    rw [phase2_adminEnabled]
    exact phase1_adminEnabled_preserved i s h
  exact (phase3_disconnected_admin i _ h1 hd).imp id And.left

/-- Claim C4: for any positive configured timeout, over any sequence of ticks
during which `isConnected()` is false, an enabled admin session never
expires: admin mode stays enabled and the elapsed-seconds counter is reset to
0 on every such tick. -/
theorem C4_admin_never_expires_disconnected (ins : Nat → Inputs) (s : St)
    (ha : s.adminEnabled = true)
    (_hmax : 0 < s.adminTimeoutCounterMax)
    (hdisc : ∀ k, isConnected (ins k).wifiIp (ins k).ethIp = false) :
    ∀ n, (runF ins s n).adminEnabled = true ∧
      (0 < n → (runF ins s n).adminTimeoutCounter = 0) := by
  intro n
  induction n with
  | zero => exact ⟨ha, by omega⟩
  | succ n ih =>
      have hstep := loopTick_admin_disconnected (ins n) (runF ins s n)
        ih.1 (hdisc n)
      exact ⟨hstep.1, fun _ => hstep.2⟩

/-- Witness for C4: three disconnected ticks from a concrete enabled state. -/
theorem C4_admin_never_expires_disconnected_witness :
    (runF (fun _ => ⟨⟨0, 0, 0, 0⟩, ⟨0, 0, 0, 0⟩, true, ⟨1⟩⟩)
        ⟨network_mode.WiFi, false, true, 0, 60, 0, 0, false, wifi_mode.APSTA,
          true, 0, 0, 0⟩ 3).adminEnabled = true ∧
      (0 < 3 → (runF (fun _ => ⟨⟨0, 0, 0, 0⟩, ⟨0, 0, 0, 0⟩, true, ⟨1⟩⟩)
        ⟨network_mode.WiFi, false, true, 0, 60, 0, 0, false, wifi_mode.APSTA,
          true, 0, 0, 0⟩ 3).adminTimeoutCounter = 0) :=
  C4_admin_never_expires_disconnected _ _ rfl (by decide) (fun _ => by decide) 3

/-- One tick with a zero admin timeout maximum and a zero-timeout
configuration keeps admin mode enabled with the counter at zero and the
maximum at zero. -/
theorem loopTick_admin_zero_timeout (i : Inputs) (s : St)
    (hcfg : i.cfg.apTimeoutMinutes = 0) (h : s.adminEnabled = true)
    (hc : s.adminTimeoutCounter = 0) (hm : s.adminTimeoutCounterMax = 0) :
    (loopTick i s).adminEnabled = true ∧
      (loopTick i s).adminTimeoutCounter = 0 ∧
      (loopTick i s).adminTimeoutCounterMax = 0 := by
  unfold loopTick
  obtain ⟨h1a, h1c, h1m⟩ := phase1_admin_zero i s h hc hm hcfg
  have h2a : (phase2 i (phase1 i s)).adminEnabled = true := by
    rw [phase2_adminEnabled]; exact h1a
  have h2m : (phase2 i (phase1 i s)).adminTimeoutCounterMax = 0 := by
    rw [phase2_adminTimeoutCounterMax]; exact h1m
  have h2c : (phase2 i (phase1 i s)).adminTimeoutCounter = 0 := by
    unfold phase2
    split_ifs with hs hcount
    · exact absurd (h1m ▸ hcount.2) (by omega)
    · exact h1c
    · exact h1c
  obtain ⟨h3a, h3c, h3m⟩ := phase3_admin_counter0 i _ h2a h2c
  exact ⟨h3a, h3c, h3m.trans h2m⟩

/-- Claim C9: with a configured admin-AP timeout of zero, an enabled admin
session is never auto-disabled over any sequence of ticks and connectivity
states: the elapsed counter is never incremented (it stays 0, so the expiry
comparison can never hold) and admin mode stays enabled. -/
theorem C9_zero_timeout_admin_never_disabled (ins : Nat → Inputs) (s : St)
    (hcfg : ∀ k, (ins k).cfg.apTimeoutMinutes = 0)
    (ha : s.adminEnabled = true)
    (hc : s.adminTimeoutCounter = 0)
    (hm : s.adminTimeoutCounterMax = 0) :
    ∀ n, (runF ins s n).adminEnabled = true ∧
      (runF ins s n).adminTimeoutCounter = 0 ∧
      (runF ins s n).adminTimeoutCounterMax = 0 := by
  intro n
  induction n with
  | zero => exact ⟨ha, hc, hm⟩
  | succ n ih =>
      exact loopTick_admin_zero_timeout (ins n) (runF ins s n) (hcfg n)
        ih.1 ih.2.1 ih.2.2

/-- Witness for C9: four ticks alternating connectivity from a concrete
enabled state with zero timeout. -/
theorem C9_zero_timeout_admin_never_disabled_witness :
    (runF (fun k => ⟨⟨if k % 2 = 0 then 192 else 0, 0, 0, 0⟩, ⟨0, 0, 0, 0⟩,
        true, ⟨0⟩⟩)
      ⟨network_mode.WiFi, false, true, 0, 0, 0, 0, false, wifi_mode.APSTA,
        true, 0, 0, 0⟩ 4).adminEnabled = true ∧
    (runF (fun k => ⟨⟨if k % 2 = 0 then 192 else 0, 0, 0, 0⟩, ⟨0, 0, 0, 0⟩,
        true, ⟨0⟩⟩)
      ⟨network_mode.WiFi, false, true, 0, 0, 0, 0, false, wifi_mode.APSTA,
        true, 0, 0, 0⟩ 4).adminTimeoutCounter = 0 ∧
    (runF (fun k => ⟨⟨if k % 2 = 0 then 192 else 0, 0, 0, 0⟩, ⟨0, 0, 0, 0⟩,
        true, ⟨0⟩⟩)
      ⟨network_mode.WiFi, false, true, 0, 0, 0, 0, false, wifi_mode.APSTA,
        true, 0, 0, 0⟩ 4).adminTimeoutCounterMax = 0 :=
  C9_zero_timeout_admin_never_disabled _ _ (fun _ => rfl) rfl rfl rfl 4

/-- One connected tick in WiFi mode with admin enabled and the counter still
below the maximum advances the counter by one and keeps admin enabled. -/
theorem loopTick_c5_count (i : Inputs) (s : St) (M : Nat)
    (ha : s.adminEnabled = true) (hm : s.networkMode = network_mode.WiFi)
    (he : s.ethConnected = false) (hcM : s.adminTimeoutCounterMax = M)
    (hk : s.adminTimeoutCounter < M) (hMU : M < U32)
    (hs : i.secondElapsed = true) (hc : isConnected i.wifiIp i.ethIp = true) :
    (loopTick i s).adminEnabled = true ∧
      (loopTick i s).adminTimeoutCounter = s.adminTimeoutCounter + 1 ∧
      (loopTick i s).adminTimeoutCounterMax = M ∧
      (loopTick i s).networkMode = network_mode.WiFi ∧
      (loopTick i s).ethConnected = false := by
  unfold loopTick
  rw [phase1_of_wifi i s he hm]
  rw [phase2_second i s hs ha (by omega)]
  have hsucc : u32succ s.adminTimeoutCounter = s.adminTimeoutCounter + 1 := by
    unfold u32succ
    exact Nat.mod_eq_of_lt (by omega)
  rw [phase3_connected_admin_le _ _ (by simp [ha]) hc
    (by simp [hsucc, hcM]; omega)]
  simp [ha, hm, he, hcM, hsucc]

/-- The connected tick on which the counter passes the maximum disables admin
mode. -/
theorem loopTick_c5_fire (i : Inputs) (s : St) (M : Nat)
    (ha : s.adminEnabled = true) (hm : s.networkMode = network_mode.WiFi)
    (he : s.ethConnected = false) (hcM : s.adminTimeoutCounterMax = M)
    (hk : s.adminTimeoutCounter = M) (hMU : M + 1 < U32) (hMpos : 0 < M)
    (hs : i.secondElapsed = true) (hc : isConnected i.wifiIp i.ethIp = true) :
    (loopTick i s).adminEnabled = false ∧
      (loopTick i s).networkMode = network_mode.WiFi ∧
      (loopTick i s).ethConnected = false := by
  unfold loopTick
  rw [phase1_of_wifi i s he hm]
  rw [phase2_second i s hs ha (by omega)]
  have hsucc : u32succ s.adminTimeoutCounter = M + 1 := by
    unfold u32succ
    rw [hk]
    exact Nat.mod_eq_of_lt (by omega)
  rw [phase3_connected_admin_gt _ _ (by simp [ha]) hc
    (by simp [hsucc, hcM])]
  simp [hm, he]

/-- Once admin mode is disabled (and the mode stays WiFi with no wired link),
a tick never re-enables it. -/
theorem loopTick_c5_frozen (i : Inputs) (s : St)
    (ha : s.adminEnabled = false) (hm : s.networkMode = network_mode.WiFi)
    (he : s.ethConnected = false) :
    (loopTick i s).adminEnabled = false ∧
      (loopTick i s).networkMode = network_mode.WiFi ∧
      (loopTick i s).ethConnected = false := by
  unfold loopTick
  rw [phase1_of_wifi i s he hm]
  rw [phase3_not_admin _ _ (by simp [ha])]
  simp [ha, hm, he, phase2_networkMode]

/-- Claim C5 (counterexample): with `timeoutSeconds = 1`, after exactly one
elapsed second of continuous connectivity the admin controller has NOT yet
transitioned enabled to false (the code disables only when the counter
exceeds the maximum, i.e. one second later), so the claim's "after exactly
timeoutSeconds elapsed seconds" timing is off by one. -/
theorem C5_counterexample :
    (runF (fun _ => ⟨⟨192, 168, 1, 2⟩, ⟨0, 0, 0, 0⟩, true, ⟨1⟩⟩)
      ⟨network_mode.WiFi, false, true, 0, 1, 0, 0, false, wifi_mode.APSTA,
        true, 0, 0, 0⟩ 1).adminEnabled = true := by
  decide

/-- Claim C5 (amended): starting from an enabled admin session with
`timeoutSeconds = M > 0` (counter 0, WiFi authoritative, no wired link),
under continuous connectivity the session stays enabled through the first
`M` elapsed seconds, is disabled on second `M + 1` (when the counter exceeds
the maximum), and stays disabled on every later tick — a single
true-to-false transition with no self re-enable. -/
theorem C5_admin_times_out_once (ins : Nat → Inputs) (s : St) (M : Nat)
    (ha : s.adminEnabled = true) (hm : s.networkMode = network_mode.WiFi)
    (he : s.ethConnected = false) (hc0 : s.adminTimeoutCounter = 0)
    (hcM : s.adminTimeoutCounterMax = M) (hMpos : 0 < M)
    (hMU : M + 1 < U32)
    (hin : ∀ k, (ins k).secondElapsed = true ∧
      isConnected (ins k).wifiIp (ins k).ethIp = true) :
    (∀ n, n ≤ M → (runF ins s n).adminEnabled = true) ∧
      (runF ins s (M + 1)).adminEnabled = false ∧
      (∀ j, (runF ins s (M + 1 + j)).adminEnabled = false) := by
  have phaseA : ∀ n, n ≤ M → (runF ins s n).adminEnabled = true ∧
      (runF ins s n).adminTimeoutCounter = n ∧
      (runF ins s n).adminTimeoutCounterMax = M ∧
      (runF ins s n).networkMode = network_mode.WiFi ∧
      (runF ins s n).ethConnected = false := by
    intro n
    induction n with
    | zero => exact fun _ => ⟨ha, hc0, hcM, hm, he⟩
    | succ n ih =>
        intro hle
        obtain ⟨pa, pc, pM, pm, pe⟩ := ih (by omega)
        obtain ⟨qa, qc, qM, qm, qe⟩ :=
          loopTick_c5_count (ins n) (runF ins s n) M pa pm pe pM
            (by omega) (by omega) (hin n).1 (hin n).2
        refine ⟨qa, ?_, qM, qm, qe⟩
        show (loopTick (ins n) (runF ins s n)).adminTimeoutCounter = n + 1
        rw [qc, pc]
  have hfire : (runF ins s (M + 1)).adminEnabled = false ∧
      (runF ins s (M + 1)).networkMode = network_mode.WiFi ∧
      (runF ins s (M + 1)).ethConnected = false := by
    obtain ⟨pa, pc, pM, pm, pe⟩ := phaseA M (by omega)
    exact loopTick_c5_fire (ins M) (runF ins s M) M pa pm pe pM pc hMU hMpos
      (hin M).1 (hin M).2
  have hfrozen : ∀ j, (runF ins s (M + 1 + j)).adminEnabled = false ∧
      (runF ins s (M + 1 + j)).networkMode = network_mode.WiFi ∧
      (runF ins s (M + 1 + j)).ethConnected = false := by
    intro j
    induction j with
    | zero => exact hfire
    | succ j ih =>
        obtain ⟨pa, pm, pe⟩ := ih
        exact loopTick_c5_frozen (ins (M + 1 + j)) (runF ins s (M + 1 + j))
          pa pm pe
  exact ⟨fun n hn => (phaseA n hn).1, hfire.1, fun j => (hfrozen j).1⟩

/-- Witness for C5 (amended) with `M = 2` and a constant connected input. -/
theorem C5_admin_times_out_once_witness :
    (∀ n, n ≤ 2 →
      (runF (fun _ => ⟨⟨192, 168, 1, 2⟩, ⟨0, 0, 0, 0⟩, true, ⟨1⟩⟩)
        ⟨network_mode.WiFi, false, true, 0, 2, 0, 0, false, wifi_mode.APSTA,
          true, 0, 0, 0⟩ n).adminEnabled = true) ∧
    (runF (fun _ => ⟨⟨192, 168, 1, 2⟩, ⟨0, 0, 0, 0⟩, true, ⟨1⟩⟩)
        ⟨network_mode.WiFi, false, true, 0, 2, 0, 0, false, wifi_mode.APSTA,
          true, 0, 0, 0⟩ 3).adminEnabled = false ∧
    (∀ j, (runF (fun _ => ⟨⟨192, 168, 1, 2⟩, ⟨0, 0, 0, 0⟩, true, ⟨1⟩⟩)
        ⟨network_mode.WiFi, false, true, 0, 2, 0, 0, false, wifi_mode.APSTA,
          true, 0, 0, 0⟩ (3 + j)).adminEnabled = false) :=
  C5_admin_times_out_once _ _ 2 rfl rfl rfl rfl rfl (by decide) (by decide)
    (fun _ => ⟨rfl, by decide⟩)

/-- With the once-per-second gate open, `phase2` bumps both reconnect timers
and (conditionally) the admin counter. -/
theorem phase2_second_general (i : Inputs) (s : St)
    (hs : i.secondElapsed = true) :
    phase2 i s = { s with
      adminTimeoutCounter :=
        if s.adminEnabled = true ∧ 0 < s.adminTimeoutCounterMax
        then u32succ s.adminTimeoutCounter else s.adminTimeoutCounter,
      connectTimeoutTimer := u32succ s.connectTimeoutTimer,
      connectRedoTimer := u32succ s.connectRedoTimer } := by
  unfold phase2
  rw [if_pos hs]
  split_ifs <;> rfl

/-- One disconnected second in WiFi admin mode below the search timeout:
both timers advance, nothing else changes. -/
theorem loopTick_c6_search (i : Inputs) (s : St)
    (ha : s.adminEnabled = true) (hm : s.networkMode = network_mode.WiFi)
    (he : s.ethConnected = false) (_hc : s.adminTimeoutCounter = 0)
    (hf : s.forceDisconnection = false)
    (hs : i.secondElapsed = true) (hd : isConnected i.wifiIp i.ethIp = false)
    (ht : s.connectTimeoutTimer + 1 ≤ WIFI_RECONNECT_TIMEOUT)
    (hcr : s.connectRedoTimer + 1 < U32) :
    (loopTick i s).adminEnabled = true ∧
      (loopTick i s).adminTimeoutCounter = 0 ∧
      (loopTick i s).networkMode = network_mode.WiFi ∧
      (loopTick i s).ethConnected = false ∧
      (loopTick i s).connectTimeoutTimer = s.connectTimeoutTimer + 1 ∧
      (loopTick i s).connectRedoTimer = s.connectRedoTimer + 1 ∧
      (loopTick i s).forceDisconnection = false ∧
      (loopTick i s).wifiMode = s.wifiMode ∧
      (loopTick i s).applyConfigCalls = s.applyConfigCalls := by
  have htU : u32succ s.connectTimeoutTimer = s.connectTimeoutTimer + 1 := by
    unfold u32succ WIFI_RECONNECT_TIMEOUT at *
    exact Nat.mod_eq_of_lt (by unfold U32; omega)
  have hrU : u32succ s.connectRedoTimer = s.connectRedoTimer + 1 := by
    unfold u32succ
    exact Nat.mod_eq_of_lt hcr
  unfold loopTick
  rw [phase1_of_wifi i s he hm, phase2_second_general i s hs]
  rw [phase3_disc_noFire i _ (by simp [ha]) hd
    (by dsimp only; rw [htU]; rintro ⟨h1, h2⟩; omega)
    (by dsimp only; rw [hf]; rintro ⟨h1, h2⟩; cases h2)]
  simp [ha, hm, he, hf, htU, hrU]

/-- The disconnected second on which the search timer passes the search
timeout: the radio drops to AP-only, the redo timer resets and the forced
flag is set. -/
theorem loopTick_c6_fire1 (i : Inputs) (s : St)
    (ha : s.adminEnabled = true) (hm : s.networkMode = network_mode.WiFi)
    (he : s.ethConnected = false) (_hc : s.adminTimeoutCounter = 0)
    (hf : s.forceDisconnection = false)
    (hs : i.secondElapsed = true) (hd : isConnected i.wifiIp i.ethIp = false)
    (ht : WIFI_RECONNECT_TIMEOUT ≤ s.connectTimeoutTimer)
    (htU : s.connectTimeoutTimer + 1 < U32)
    (_hcr : s.connectRedoTimer + 1 < U32) :
    (loopTick i s).adminEnabled = true ∧
      (loopTick i s).adminTimeoutCounter = 0 ∧
      (loopTick i s).networkMode = network_mode.WiFi ∧
      (loopTick i s).ethConnected = false ∧
      (loopTick i s).connectTimeoutTimer = s.connectTimeoutTimer + 1 ∧
      (loopTick i s).connectRedoTimer = 0 ∧
      (loopTick i s).forceDisconnection = true ∧
      (loopTick i s).wifiMode = wifi_mode.AP ∧
      (loopTick i s).applyConfigCalls = s.applyConfigCalls := by
  have htU' : u32succ s.connectTimeoutTimer = s.connectTimeoutTimer + 1 := by
    unfold u32succ
    exact Nat.mod_eq_of_lt htU
  unfold loopTick
  rw [phase1_of_wifi i s he hm, phase2_second_general i s hs]
  rw [phase3_disc_fire1 i _ (by simp [ha]) hd (by dsimp only; rw [hf])
    (by dsimp only; rw [htU']; unfold WIFI_RECONNECT_TIMEOUT at *; omega)]
  simp [ha, hm, he, htU']

/-- One disconnected second while forced, below the redo timeout: timers
advance, the radio stays as it is, the forced flag stays set. -/
theorem loopTick_c6_forced (i : Inputs) (s : St)
    (ha : s.adminEnabled = true) (hm : s.networkMode = network_mode.WiFi)
    (he : s.ethConnected = false) (_hc : s.adminTimeoutCounter = 0)
    (hf : s.forceDisconnection = true)
    (hs : i.secondElapsed = true) (hd : isConnected i.wifiIp i.ethIp = false)
    (hr : s.connectRedoTimer + 1 ≤ WIFI_RECONNECT_REDO_TIMEOUT)
    (htU : s.connectTimeoutTimer + 1 < U32) :
    (loopTick i s).adminEnabled = true ∧
      (loopTick i s).adminTimeoutCounter = 0 ∧
      (loopTick i s).networkMode = network_mode.WiFi ∧
      (loopTick i s).ethConnected = false ∧
      (loopTick i s).connectTimeoutTimer = s.connectTimeoutTimer + 1 ∧
      (loopTick i s).connectRedoTimer = s.connectRedoTimer + 1 ∧
      (loopTick i s).forceDisconnection = true ∧
      (loopTick i s).wifiMode = s.wifiMode ∧
      (loopTick i s).applyConfigCalls = s.applyConfigCalls := by
  have htU' : u32succ s.connectTimeoutTimer = s.connectTimeoutTimer + 1 := by
    unfold u32succ
    exact Nat.mod_eq_of_lt htU
  have hrU : u32succ s.connectRedoTimer = s.connectRedoTimer + 1 := by
    unfold u32succ WIFI_RECONNECT_REDO_TIMEOUT at *
    exact Nat.mod_eq_of_lt (by unfold U32; omega)
  unfold loopTick
  rw [phase1_of_wifi i s he hm, phase2_second_general i s hs]
  rw [phase3_disc_noFire i _ (by simp [ha]) hd
    (by dsimp only; rw [hf]; rintro ⟨h1, h2⟩; cases h2)
    (by dsimp only; rw [hrU]; rintro ⟨h1, h2⟩; omega)]
  simp [ha, hm, he, hf, htU', hrU]

/-- The disconnected second on which the redo timer passes the redo timeout
while forced: the radio returns to AP+station, the station configuration is
re-applied once, the search timer resets and the forced flag clears. -/
theorem loopTick_c6_fire2 (i : Inputs) (s : St)
    (ha : s.adminEnabled = true) (hm : s.networkMode = network_mode.WiFi)
    (he : s.ethConnected = false) (_hc : s.adminTimeoutCounter = 0)
    (hf : s.forceDisconnection = true)
    (hs : i.secondElapsed = true) (hd : isConnected i.wifiIp i.ethIp = false)
    (hr : WIFI_RECONNECT_REDO_TIMEOUT ≤ s.connectRedoTimer)
    (hrU : s.connectRedoTimer + 1 < U32)
    (_htU : s.connectTimeoutTimer + 1 < U32) :
    (loopTick i s).adminEnabled = true ∧
      (loopTick i s).adminTimeoutCounter = 0 ∧
      (loopTick i s).networkMode = network_mode.WiFi ∧
      (loopTick i s).ethConnected = false ∧
      (loopTick i s).connectTimeoutTimer = 0 ∧
      (loopTick i s).connectRedoTimer = s.connectRedoTimer + 1 ∧
      (loopTick i s).forceDisconnection = false ∧
      (loopTick i s).wifiMode = wifi_mode.APSTA ∧
      (loopTick i s).applyConfigCalls = s.applyConfigCalls + 1 := by
  have hrU' : u32succ s.connectRedoTimer = s.connectRedoTimer + 1 := by
    unfold u32succ
    exact Nat.mod_eq_of_lt hrU
  unfold loopTick
  rw [phase1_of_wifi i s he hm, phase2_second_general i s hs]
  rw [phase3_disc_fire2 i _ (by simp [ha]) hd (by dsimp only; rw [hf])
    (by dsimp only; rw [hrU']; unfold WIFI_RECONNECT_REDO_TIMEOUT at *; omega)]
  refine ⟨by simp [ha], by simp, by simp [hm], by simp [he], rfl, ?_, rfl, ?_, ?_⟩
  · simp [hrU']
  · show (applyConfigSt _).wifiMode = wifi_mode.APSTA
    exact applyConfigSt_wifiMode_of_wifi_admin _ (by simp [hm]) (by simp [ha])
  · simp

/-- Splitting a run of ticks at an intermediate point. -/
theorem runF_add (ins : Nat → Inputs) (s : St) (m n : Nat) :
    runF ins s (m + n) = runF (fun k => ins (m + k)) (runF ins s m) n := by
  induction n with
  | zero => rfl
  | succ n ih =>
      show loopTick (ins (m + n)) (runF ins s (m + n)) = _
      rw [ih]
      rfl

/-- Iterated disconnected seconds in the search phase (not forced): both
timers advance linearly while everything else holds still. -/
theorem runF_c6_search (ins : Nat → Inputs) (s : St)
    (hin : ∀ k, (ins k).secondElapsed = true ∧
      isConnected (ins k).wifiIp (ins k).ethIp = false)
    (ha : s.adminEnabled = true) (hm : s.networkMode = network_mode.WiFi)
    (he : s.ethConnected = false) (hc : s.adminTimeoutCounter = 0)
    (hf : s.forceDisconnection = false) :
    ∀ n, s.connectTimeoutTimer + n ≤ WIFI_RECONNECT_TIMEOUT →
      s.connectRedoTimer + n < U32 →
      (runF ins s n).adminEnabled = true ∧
        (runF ins s n).adminTimeoutCounter = 0 ∧
        (runF ins s n).networkMode = network_mode.WiFi ∧
        (runF ins s n).ethConnected = false ∧
        (runF ins s n).connectTimeoutTimer = s.connectTimeoutTimer + n ∧
        (runF ins s n).connectRedoTimer = s.connectRedoTimer + n ∧
        (runF ins s n).forceDisconnection = false ∧
        (runF ins s n).wifiMode = s.wifiMode ∧
        (runF ins s n).applyConfigCalls = s.applyConfigCalls := by
  intro n
  induction n with
  | zero => exact fun _ _ => ⟨ha, hc, hm, he, rfl, rfl, hf, rfl, rfl⟩
  | succ n ih =>
      intro hbt hbr
      obtain ⟨pa, pc, pm, pe, pt, pr, pf, pw, pa2⟩ :=
        ih (by omega) (by omega)
      obtain ⟨qa, qc, qm, qe, qt, qr, qf, qw, qa2⟩ :=
        loopTick_c6_search (ins n) (runF ins s n) pa pm pe pc pf
          (hin n).1 (hin n).2 (by omega) (by omega)
      refine ⟨qa, qc, qm, qe, ?_, ?_, qf, ?_, ?_⟩
      · show (loopTick (ins n) (runF ins s n)).connectTimeoutTimer = _
        rw [qt, pt]
        omega
      · show (loopTick (ins n) (runF ins s n)).connectRedoTimer = _
        rw [qr, pr]
        omega
      · show (loopTick (ins n) (runF ins s n)).wifiMode = s.wifiMode
        rw [qw, pw]
      · show (loopTick (ins n) (runF ins s n)).applyConfigCalls = _
        rw [qa2, pa2]

/-- Iterated disconnected seconds in the forced phase: both timers advance
linearly while the forced flag, the radio mode and the call counter hold. -/
theorem runF_c6_forced (ins : Nat → Inputs) (s : St)
    (hin : ∀ k, (ins k).secondElapsed = true ∧
      isConnected (ins k).wifiIp (ins k).ethIp = false)
    (ha : s.adminEnabled = true) (hm : s.networkMode = network_mode.WiFi)
    (he : s.ethConnected = false) (hc : s.adminTimeoutCounter = 0)
    (hf : s.forceDisconnection = true) :
    ∀ n, s.connectRedoTimer + n ≤ WIFI_RECONNECT_REDO_TIMEOUT →
      s.connectTimeoutTimer + n < U32 →
      (runF ins s n).adminEnabled = true ∧
        (runF ins s n).adminTimeoutCounter = 0 ∧
        (runF ins s n).networkMode = network_mode.WiFi ∧
        (runF ins s n).ethConnected = false ∧
        (runF ins s n).connectTimeoutTimer = s.connectTimeoutTimer + n ∧
        (runF ins s n).connectRedoTimer = s.connectRedoTimer + n ∧
        (runF ins s n).forceDisconnection = true ∧
        (runF ins s n).wifiMode = s.wifiMode ∧
        (runF ins s n).applyConfigCalls = s.applyConfigCalls := by
  intro n
  induction n with
  | zero => exact fun _ _ => ⟨ha, hc, hm, he, rfl, rfl, hf, rfl, rfl⟩
  | succ n ih =>
      intro hbr hbt
      obtain ⟨pa, pc, pm, pe, pt, pr, pf, pw, pa2⟩ :=
        ih (by omega) (by omega)
      obtain ⟨qa, qc, qm, qe, qt, qr, qf, qw, qa2⟩ :=
        loopTick_c6_forced (ins n) (runF ins s n) pa pm pe pc pf
          (hin n).1 (hin n).2 (by omega) (by omega)
      refine ⟨qa, qc, qm, qe, ?_, ?_, qf, ?_, ?_⟩
      · show (loopTick (ins n) (runF ins s n)).connectTimeoutTimer = _
        rw [qt, pt]
        omega
      · show (loopTick (ins n) (runF ins s n)).connectRedoTimer = _
        rw [qr, pr]
        omega
      · show (loopTick (ins n) (runF ins s n)).wifiMode = s.wifiMode
        rw [qw, pw]
      · show (loopTick (ins n) (runF ins s n)).applyConfigCalls = _
        rw [qa2, pa2]

/-- Claim C6: with admin mode enabled, WiFi authoritative and continuous
disconnection (starting with fresh timers and the forced flag clear), the
radio drops to AP-only with the forced flag set and the redo counter reset
on the tick after the search timer exceeds the search timeout; it stays
AP-only, with no station reconfiguration, while the redo timeout runs; on
the tick after the redo timer exceeds the redo timeout the radio returns to
AP+station, the station configuration is re-applied exactly once for the
cycle, and the forced flag clears (no further re-apply through the next
search phase). -/
theorem C6_reconnect_backoff (ins : Nat → Inputs) (s : St)
    (hin : ∀ k, (ins k).secondElapsed = true ∧
      isConnected (ins k).wifiIp (ins k).ethIp = false)
    (ha : s.adminEnabled = true) (hm : s.networkMode = network_mode.WiFi)
    (he : s.ethConnected = false) (hc : s.adminTimeoutCounter = 0)
    (hf : s.forceDisconnection = false) (ht0 : s.connectTimeoutTimer = 0)
    (hr0 : s.connectRedoTimer = 0) :
    ((runF ins s (WIFI_RECONNECT_TIMEOUT + 1)).wifiMode = wifi_mode.AP ∧
      (runF ins s (WIFI_RECONNECT_TIMEOUT + 1)).forceDisconnection = true ∧
      (runF ins s (WIFI_RECONNECT_TIMEOUT + 1)).connectRedoTimer = 0) ∧
    (∀ n, n ≤ WIFI_RECONNECT_REDO_TIMEOUT →
      (runF ins s (WIFI_RECONNECT_TIMEOUT + 1 + n)).wifiMode = wifi_mode.AP ∧
      (runF ins s (WIFI_RECONNECT_TIMEOUT + 1 + n)).forceDisconnection = true ∧
      (runF ins s (WIFI_RECONNECT_TIMEOUT + 1 + n)).applyConfigCalls
        = s.applyConfigCalls) ∧
    ((runF ins s (WIFI_RECONNECT_TIMEOUT + WIFI_RECONNECT_REDO_TIMEOUT + 2)).wifiMode
        = wifi_mode.APSTA ∧
      (runF ins s (WIFI_RECONNECT_TIMEOUT + WIFI_RECONNECT_REDO_TIMEOUT + 2)).forceDisconnection
        = false ∧
      (runF ins s (WIFI_RECONNECT_TIMEOUT + WIFI_RECONNECT_REDO_TIMEOUT + 2)).applyConfigCalls
        = s.applyConfigCalls + 1) ∧
    (∀ n, n ≤ WIFI_RECONNECT_TIMEOUT →
      (runF ins s (WIFI_RECONNECT_TIMEOUT + WIFI_RECONNECT_REDO_TIMEOUT + 2 + n)).applyConfigCalls
        = s.applyConfigCalls + 1) := by
  simp only [WIFI_RECONNECT_TIMEOUT, WIFI_RECONNECT_REDO_TIMEOUT] at *
  -- state after the 15 search-phase ticks
  obtain ⟨p15a, p15c, p15m, p15e, p15t, p15r, p15f, p15w, p15ca⟩ :=
    runF_c6_search ins s hin ha hm he hc hf 15
      (by unfold WIFI_RECONNECT_TIMEOUT; omega) (by unfold U32; omega)
  -- tick 16 fires the forced disconnect
  obtain ⟨q16a, q16c, q16m, q16e, q16t, q16r, q16f, q16w, q16ca⟩ :=
    loopTick_c6_fire1 (ins 15) (runF ins s 15) p15a p15m p15e p15c p15f
      (hin 15).1 (hin 15).2
      (by rw [p15t]; unfold WIFI_RECONNECT_TIMEOUT; omega)
      (by rw [p15t]; unfold U32; omega) (by rw [p15r]; unfold U32; omega)
  have h16 : (runF ins s 16).adminEnabled = true ∧
      (runF ins s 16).adminTimeoutCounter = 0 ∧
      (runF ins s 16).networkMode = network_mode.WiFi ∧
      (runF ins s 16).ethConnected = false ∧
      (runF ins s 16).connectTimeoutTimer = 16 ∧
      (runF ins s 16).connectRedoTimer = 0 ∧
      (runF ins s 16).forceDisconnection = true ∧
      (runF ins s 16).wifiMode = wifi_mode.AP ∧
      (runF ins s 16).applyConfigCalls = s.applyConfigCalls := by
    refine ⟨q16a, q16c, q16m, q16e, ?_, q16r, q16f, q16w, ?_⟩
    · show (loopTick (ins 15) (runF ins s 15)).connectTimeoutTimer = 16
      rw [q16t, p15t, ht0]
    · show (loopTick (ins 15) (runF ins s 15)).applyConfigCalls = _
      rw [q16ca, p15ca]
  obtain ⟨h16a, h16c, h16m, h16e, h16t, h16r, h16f, h16w, h16ca⟩ := h16
  have hshift : ∀ k, ((fun j => ins (16 + j)) k).secondElapsed = true ∧
      isConnected ((fun j => ins (16 + j)) k).wifiIp
        ((fun j => ins (16 + j)) k).ethIp = false := fun k => hin (16 + k)
  -- the forced phase
  have hforced : ∀ n, n ≤ 600 →
      (runF ins s (16 + n)).adminEnabled = true ∧
        (runF ins s (16 + n)).adminTimeoutCounter = 0 ∧
        (runF ins s (16 + n)).networkMode = network_mode.WiFi ∧
        (runF ins s (16 + n)).ethConnected = false ∧
        (runF ins s (16 + n)).connectTimeoutTimer = 16 + n ∧
        (runF ins s (16 + n)).connectRedoTimer = n ∧
        (runF ins s (16 + n)).forceDisconnection = true ∧
        (runF ins s (16 + n)).wifiMode = wifi_mode.AP ∧
        (runF ins s (16 + n)).applyConfigCalls = s.applyConfigCalls := by
    intro n hn
    rw [runF_add ins s 16 n]
    obtain ⟨ra, rc, rm, re, rt, rr, rf, rw2, rca⟩ :=
      runF_c6_forced (fun j => ins (16 + j)) (runF ins s 16) hshift
        h16a h16m h16e h16c h16f n
        (by rw [h16r]; unfold WIFI_RECONNECT_REDO_TIMEOUT; omega)
        (by rw [h16t]; unfold U32; omega)
    refine ⟨ra, rc, rm, re, ?_, ?_, rf, ?_, ?_⟩
    · rw [rt, h16t]
    · rw [rr, h16r]
      omega
    · rw [rw2, h16w]
    · rw [rca, h16ca]
  -- state after 616 ticks, then tick 617 fires the re-apply
  obtain ⟨p616a, p616c, p616m, p616e, p616t, p616r, p616f, p616w, p616ca⟩ :=
    hforced 600 (by omega)
  have h617eq : runF ins s 617 = loopTick (ins 616) (runF ins s (16 + 600)) := rfl
  have h617 : (runF ins s 617).adminEnabled = true ∧
      (runF ins s 617).adminTimeoutCounter = 0 ∧
      (runF ins s 617).networkMode = network_mode.WiFi ∧
      (runF ins s 617).ethConnected = false ∧
      (runF ins s 617).connectTimeoutTimer = 0 ∧
      (runF ins s 617).connectRedoTimer = 601 ∧
      (runF ins s 617).forceDisconnection = false ∧
      (runF ins s 617).wifiMode = wifi_mode.APSTA ∧
      (runF ins s 617).applyConfigCalls = s.applyConfigCalls + 1 := by
    rw [h617eq]
    obtain ⟨va, vc, vm, ve, vt, vr, vf, vw, vca⟩ :=
      loopTick_c6_fire2 (ins 616) (runF ins s (16 + 600)) p616a p616m p616e
        p616c p616f (hin 616).1 (hin 616).2
        (by rw [p616r]; unfold WIFI_RECONNECT_REDO_TIMEOUT; omega)
        (by rw [p616r]; unfold U32; omega)
        (by rw [p616t]; unfold U32; omega)
    refine ⟨va, vc, vm, ve, vt, ?_, vf, vw, ?_⟩
    · rw [vr, p616r]
    · rw [vca, p616ca]
  obtain ⟨h617a, h617c, h617m, h617e, h617t, h617r, h617f, h617w, h617ca⟩ := h617
  have hshift2 : ∀ k, ((fun j => ins (617 + j)) k).secondElapsed = true ∧
      isConnected ((fun j => ins (617 + j)) k).wifiIp
        ((fun j => ins (617 + j)) k).ethIp = false := fun k => hin (617 + k)
  refine ⟨⟨h16w, h16f, h16r⟩, ?_, ⟨h617w, h617f, h617ca⟩, ?_⟩
  · intro n hn
    obtain ⟨_, _, _, _, _, _, xf, xw, xca⟩ := hforced n hn
    exact ⟨xw, xf, xca⟩
  · intro n hn
    rw [runF_add ins s 617 n]
    obtain ⟨wa, wc, wm, we, wt, wr, wf, ww, wca⟩ :=
      runF_c6_search (fun j => ins (617 + j)) (runF ins s 617) hshift2
        h617a h617m h617e h617c h617f n
        (by rw [h617t]; unfold WIFI_RECONNECT_TIMEOUT; omega)
        (by rw [h617r]; unfold U32; omega)
    rw [wca, h617ca]

/-- Witness for C6: the full forced/unforced cycle from a concrete clean
state under a constant disconnected input. -/
theorem C6_reconnect_backoff_witness :
    ((runF (fun _ => ⟨⟨0, 0, 0, 0⟩, ⟨0, 0, 0, 0⟩, true, ⟨1⟩⟩)
        ⟨network_mode.WiFi, false, true, 0, 60, 0, 0, false, wifi_mode.APSTA,
          true, 0, 0, 0⟩ (WIFI_RECONNECT_TIMEOUT + 1)).wifiMode
        = wifi_mode.AP ∧
      (runF (fun _ => ⟨⟨0, 0, 0, 0⟩, ⟨0, 0, 0, 0⟩, true, ⟨1⟩⟩)
        ⟨network_mode.WiFi, false, true, 0, 60, 0, 0, false, wifi_mode.APSTA,
          true, 0, 0, 0⟩ (WIFI_RECONNECT_TIMEOUT + 1)).forceDisconnection
        = true ∧
      (runF (fun _ => ⟨⟨0, 0, 0, 0⟩, ⟨0, 0, 0, 0⟩, true, ⟨1⟩⟩)
        ⟨network_mode.WiFi, false, true, 0, 60, 0, 0, false, wifi_mode.APSTA,
          true, 0, 0, 0⟩ (WIFI_RECONNECT_TIMEOUT + 1)).connectRedoTimer
        = 0) ∧
    (∀ n, n ≤ WIFI_RECONNECT_REDO_TIMEOUT →
      (runF (fun _ => ⟨⟨0, 0, 0, 0⟩, ⟨0, 0, 0, 0⟩, true, ⟨1⟩⟩)
        ⟨network_mode.WiFi, false, true, 0, 60, 0, 0, false, wifi_mode.APSTA,
          true, 0, 0, 0⟩ (WIFI_RECONNECT_TIMEOUT + 1 + n)).wifiMode
        = wifi_mode.AP ∧
      (runF (fun _ => ⟨⟨0, 0, 0, 0⟩, ⟨0, 0, 0, 0⟩, true, ⟨1⟩⟩)
        ⟨network_mode.WiFi, false, true, 0, 60, 0, 0, false, wifi_mode.APSTA,
          true, 0, 0, 0⟩ (WIFI_RECONNECT_TIMEOUT + 1 + n)).forceDisconnection
        = true ∧
      (runF (fun _ => ⟨⟨0, 0, 0, 0⟩, ⟨0, 0, 0, 0⟩, true, ⟨1⟩⟩)
        ⟨network_mode.WiFi, false, true, 0, 60, 0, 0, false, wifi_mode.APSTA,
          true, 0, 0, 0⟩ (WIFI_RECONNECT_TIMEOUT + 1 + n)).applyConfigCalls
        = 0) ∧
    ((runF (fun _ => ⟨⟨0, 0, 0, 0⟩, ⟨0, 0, 0, 0⟩, true, ⟨1⟩⟩)
        ⟨network_mode.WiFi, false, true, 0, 60, 0, 0, false, wifi_mode.APSTA,
          true, 0, 0, 0⟩
        (WIFI_RECONNECT_TIMEOUT + WIFI_RECONNECT_REDO_TIMEOUT + 2)).wifiMode
        = wifi_mode.APSTA ∧
      (runF (fun _ => ⟨⟨0, 0, 0, 0⟩, ⟨0, 0, 0, 0⟩, true, ⟨1⟩⟩)
        ⟨network_mode.WiFi, false, true, 0, 60, 0, 0, false, wifi_mode.APSTA,
          true, 0, 0, 0⟩
        (WIFI_RECONNECT_TIMEOUT + WIFI_RECONNECT_REDO_TIMEOUT + 2)).forceDisconnection
        = false ∧
      (runF (fun _ => ⟨⟨0, 0, 0, 0⟩, ⟨0, 0, 0, 0⟩, true, ⟨1⟩⟩)
        ⟨network_mode.WiFi, false, true, 0, 60, 0, 0, false, wifi_mode.APSTA,
          true, 0, 0, 0⟩
        (WIFI_RECONNECT_TIMEOUT + WIFI_RECONNECT_REDO_TIMEOUT + 2)).applyConfigCalls
        = 0 + 1) ∧
    (∀ n, n ≤ WIFI_RECONNECT_TIMEOUT →
      (runF (fun _ => ⟨⟨0, 0, 0, 0⟩, ⟨0, 0, 0, 0⟩, true, ⟨1⟩⟩)
        ⟨network_mode.WiFi, false, true, 0, 60, 0, 0, false, wifi_mode.APSTA,
          true, 0, 0, 0⟩
        (WIFI_RECONNECT_TIMEOUT + WIFI_RECONNECT_REDO_TIMEOUT + 2 + n)).applyConfigCalls
        = 0 + 1) :=
  C6_reconnect_backoff _ _ (fun _ => ⟨rfl, by decide⟩) rfl rfl rfl rfl rfl
    rfl rfl

/-- Membership in the invocation list of one publish: exactly the non-null
subscriptions whose filter equals the event or is the wildcard, and the
delivered event is the published one. -/
theorem mem_raiseEvent (subs : List Subscription) (e : network_event)
    (c : Nat) (e' : network_event) :
    (c, e') ∈ raiseEvent subs e ↔
      (e' = e ∧ ∃ sub ∈ subs, sub.cb = some c ∧
        (sub.event = e ∨ sub.event = network_event.NETWORK_EVENT_MAX)) := by
  unfold raiseEvent
  rw [List.mem_filterMap]
  constructor
  · rintro ⟨⟨cb, ev⟩, hsub, hf⟩
    cases cb with
    | none => cases hf
    | some d =>
        dsimp only at hf
        split_ifs at hf with hmatch
        cases hf
        exact ⟨rfl, ⟨some c, ev⟩, hsub, rfl, hmatch⟩
  · rintro ⟨rfl, ⟨cb, ev⟩, hsub, hcb, hmatch⟩
    dsimp only at hcb hmatch
    subst hcb
    refine ⟨⟨some c, ev⟩, hsub, ?_⟩
    dsimp only
    rw [if_pos hmatch]

/-- If no subscription of the list carries the callback `c`, one publish
delivers nothing to `c`. -/
theorem raiseEvent_proj_nil (subs : List Subscription) (e : network_event)
    (c : Nat) (hno : ∀ sub ∈ subs, ¬ sub.cb = some c) :
    (raiseEvent subs e).filterMap
      (fun p => if p.1 = c then some p.2 else none) = [] := by
  rw [List.filterMap_eq_nil_iff]
  intro p hp
  obtain ⟨sub, hsub, hcb, _⟩ :=
    ((mem_raiseEvent subs e p.1 p.2).mp (by exact hp)).2
  have := hno sub hsub
  rw [if_neg]
  intro hpc
  exact this (by rw [hcb, hpc])

/-- Evaluating one publish on the head of the subscription list. -/
theorem raiseEvent_cons (cb : Option Nat) (ev : network_event)
    (rest : List Subscription) (e : network_event) :
    raiseEvent (⟨cb, ev⟩ :: rest) e =
      (match cb with
       | none => raiseEvent rest e
       | some d =>
           if ev = e ∨ ev = network_event.NETWORK_EVENT_MAX
           then (d, e) :: raiseEvent rest e else raiseEvent rest e) := by
  unfold raiseEvent
  rw [List.filterMap_cons]
  cases cb with
  | none => rfl
  | some d =>
      dsimp only
      split_ifs <;> rfl

/-- If `c` appears exactly once in the list, with the wildcard filter, one
publish delivers exactly the published event to `c`. -/
theorem raiseEvent_proj_wildcard (subs : List Subscription)
    (e : network_event) (c : Nat)
    (hone : subs.filter (fun sub => decide (sub.cb = some c)) =
      [⟨some c, network_event.NETWORK_EVENT_MAX⟩]) :
    (raiseEvent subs e).filterMap
      (fun p => if p.1 = c then some p.2 else none) = [e] := by
  induction subs with
  | nil => cases hone
  | cons sub rest ih =>
      obtain ⟨cb, ev⟩ := sub
      by_cases hcb : cb = some c
      · subst hcb
        rw [List.filter_cons_of_pos (by simp)] at hone
        injection hone with h1 h2
        injection h1 with h1a h1b
        subst h1b
        have hrest : ∀ x ∈ rest, ¬ x.cb = some c := by
          intro x hx hxc
          have hnil := List.filter_eq_nil_iff.mp h2 x hx
          simp [hxc] at hnil
        rw [raiseEvent_cons]
        dsimp only
        rw [if_pos (Or.inr rfl), List.filterMap_cons]
        dsimp only
        rw [if_pos rfl, raiseEvent_proj_nil rest e c hrest]
      · rw [List.filter_cons_of_neg (by simp [hcb])] at hone
        have htail := ih hone
        rw [raiseEvent_cons]
        cases cb with
        | none => exact htail
        | some d =>
            have hdc : ¬ d = c := fun hd => hcb (by rw [hd])
            dsimp only
            split_ifs with hm
            · rw [List.filterMap_cons]
              dsimp only
              rw [if_neg hdc]
              exact htail
            · exact htail

/-- One publish, written as the spec words it: filter the subscription list
to the non-null entries whose filter matches the event or is the wildcard,
and invoke them in subscription order. -/
theorem raiseEvent_eq_filter_map (subs : List Subscription)
    (e : network_event) :
    raiseEvent subs e =
      (subs.filter (fun sub => decide (¬ sub.cb = none ∧
        (sub.event = e ∨ sub.event = network_event.NETWORK_EVENT_MAX)))).map
        (fun sub => (sub.cb.getD 0, e)) := by
  induction subs with
  | nil => rfl
  | cons sub rest ih =>
      obtain ⟨cb, ev⟩ := sub
      rw [raiseEvent_cons]
      cases cb with
      | none =>
          rw [List.filter_cons_of_neg (by simp)]
          exact ih
      | some d =>
          dsimp only
          split_ifs with hm
          · rw [List.filter_cons_of_pos (by simp [hm]), List.map_cons, ih]
            rfl
          · rw [List.filter_cons_of_neg (by simp [hm])]
            exact ih

/-- A callback whose every subscription filters on `Connected` receives only
`Connected` events over any publish sequence. -/
theorem receivedBy_connected_only (subs : List Subscription) (c : Nat)
    (evs : List network_event)
    (hfil : ∀ sub ∈ subs, sub.cb = some c →
      sub.event = network_event.NETWORK_CONNECTED) :
    ∀ x ∈ receivedBy c subs evs, x = network_event.NETWORK_CONNECTED := by
  intro x hx
  unfold receivedBy publishSeq at hx
  rw [List.mem_filterMap] at hx
  obtain ⟨p, hp, hproj⟩ := hx
  rw [List.mem_flatten] at hp
  obtain ⟨l, hl, hpl⟩ := hp
  rw [List.mem_map] at hl
  obtain ⟨e, he, rfl⟩ := hl
  obtain ⟨a, b⟩ := p
  dsimp only at hproj
  split_ifs at hproj with hac
  injection hproj with hbx
  subst hbx
  subst hac
  obtain ⟨rfl, sub, hsub, hcb, hmatch⟩ := (mem_raiseEvent subs e a b).mp hpl
  have hconn := hfil sub hsub hcb
  rcases hmatch with h1 | h2
  · rw [← h1, hconn]
  · rw [hconn] at h2
    cases h2

/-- A callback subscribed exactly once, with the wildcard filter, receives
every published event in publish order. -/
theorem receivedBy_wildcard (subs : List Subscription) (c : Nat)
    (hone : subs.filter (fun sub => decide (sub.cb = some c)) =
      [⟨some c, network_event.NETWORK_EVENT_MAX⟩]) :
    ∀ evs, receivedBy c subs evs = evs := by
  intro evs
  induction evs with
  | nil => rfl
  | cons e evs ih =>
      unfold receivedBy publishSeq
      rw [List.map_cons, List.flatten_cons, List.filterMap_append]
      unfold receivedBy publishSeq at ih
      rw [raiseEvent_proj_wildcard subs e c hone, ih]
      rfl

/-- Claim C7: `raiseEvent` invokes exactly the non-null subscriptions whose
filter equals the published event or is the wildcard, in subscription order
(the filter-then-invoke form); consequently a subscription filtered to
`Connected` never receives any event other than `Connected` (in particular
neither `Disconnected` nor `GotAddress`), and a callback holding exactly one
wildcard subscription receives every published event in publish order. -/
theorem C7_event_bus_delivery :
    (∀ (subs : List Subscription) (e : network_event) (c : Nat)
        (e' : network_event),
      (c, e') ∈ raiseEvent subs e ↔
        (e' = e ∧ ∃ sub ∈ subs, sub.cb = some c ∧
          (sub.event = e ∨ sub.event = network_event.NETWORK_EVENT_MAX))) ∧
    (∀ (subs : List Subscription) (e : network_event),
      raiseEvent subs e =
        (subs.filter (fun sub => decide (¬ sub.cb = none ∧
          (sub.event = e ∨ sub.event = network_event.NETWORK_EVENT_MAX)))).map
          (fun sub => (sub.cb.getD 0, e))) ∧
    (∀ (subs : List Subscription) (c : Nat) (evs : List network_event),
      (∀ sub ∈ subs, sub.cb = some c →
        sub.event = network_event.NETWORK_CONNECTED) →
      ∀ x ∈ receivedBy c subs evs, x = network_event.NETWORK_CONNECTED) ∧
    (∀ (subs : List Subscription) (c : Nat) (evs : List network_event),
      subs.filter (fun sub => decide (sub.cb = some c)) =
        [⟨some c, network_event.NETWORK_EVENT_MAX⟩] →
      receivedBy c subs evs = evs) :=
  ⟨mem_raiseEvent, raiseEvent_eq_filter_map,
   receivedBy_connected_only,
   fun subs c evs hone => receivedBy_wildcard subs c hone evs⟩

/-- Witness for C7: a Connected-filtered and a wildcard subscription over a
concrete publish sequence. -/
theorem C7_event_bus_delivery_witness :
    (∀ x ∈ receivedBy 1
        [⟨some 1, network_event.NETWORK_CONNECTED⟩,
         ⟨some 2, network_event.NETWORK_EVENT_MAX⟩]
        [network_event.NETWORK_CONNECTED, network_event.NETWORK_GOT_IP,
         network_event.NETWORK_DISCONNECTED],
      x = network_event.NETWORK_CONNECTED) ∧
    receivedBy 2
        [⟨some 1, network_event.NETWORK_CONNECTED⟩,
         ⟨some 2, network_event.NETWORK_EVENT_MAX⟩]
        [network_event.NETWORK_CONNECTED, network_event.NETWORK_GOT_IP,
         network_event.NETWORK_DISCONNECTED] =
      [network_event.NETWORK_CONNECTED, network_event.NETWORK_GOT_IP,
       network_event.NETWORK_DISCONNECTED] :=
  ⟨C7_event_bus_delivery.2.2.1 _ 1 _ (by decide),
   C7_event_bus_delivery.2.2.2 _ 2 _ (by decide)⟩

/-- The per-character rule matches the spec's phrasing of it. -/
theorem keepChar_eq_specKeep (c : Char) : keepChar c = specKeep c := by
  unfold keepChar specKeep
  by_cases h1 : c.isAlphanum
  · rw [if_pos h1, if_pos h1]
  · rw [if_neg h1, if_neg h1]
    by_cases h2 : c = ' ' ∨ c = '_' ∨ c = '-' ∨ c = '+' ∨ c = '!' ∨ c = '?'
        ∨ c = '*'
    · rw [if_pos h2, if_pos (by simpa using h2)]
    · rw [if_neg h2, if_neg (by simpa using h2)]

/-- Within the length bound the sanitization loop is a plain `filterMap`. -/
theorem sanitizeAux_eq_filterMap (maxLen : Nat) (l : List Char) :
    ∀ pos, l.length + pos ≤ maxLen →
      sanitizeAux maxLen l pos = l.filterMap keepChar := by
  induction l with
  | nil => intro pos _; rfl
  | cons ch cs ih =>
      intro pos hlen
      simp only [List.length_cons] at hlen
      simp only [sanitizeAux]
      rw [if_pos (by omega), List.filterMap_cons]
      cases hk : keepChar ch with
      | none =>
          dsimp only
          exact ih pos (by omega)
      | some d =>
          dsimp only
          rw [ih (pos + 1) (by omega)]

/-- Whatever the sanitization loop emits is alphanumeric or a hyphen. -/
theorem keepChar_some_alnum_or_hyphen (ch d : Char)
    (h : keepChar ch = some d) : d.isAlphanum = true ∨ d = '-' := by
  unfold keepChar at h
  split_ifs at h with h1 h2
  · injection h with hd
    subst hd
    exact Or.inl h1
  · injection h with hd
    exact Or.inr hd.symm

/-- Members of the sanitization output come from `keepChar`. -/
theorem mem_sanitizeAux (maxLen : Nat) (l : List Char) :
    ∀ pos d, d ∈ sanitizeAux maxLen l pos → ∃ ch, keepChar ch = some d := by
  induction l with
  | nil => intro pos d hd; cases hd
  | cons ch cs ih =>
      intro pos d hd
      simp only [sanitizeAux] at hd
      split_ifs at hd with hpos
      · cases hk : keepChar ch with
        | none =>
            rw [hk] at hd
            exact ih pos d hd
        | some e =>
            rw [hk] at hd
            rcases List.mem_cons.mp hd with rfl | hmem
            · exact ⟨ch, hk⟩
            · exact ih (pos + 1) d hmem
      · cases hd

/-- The sanitization loop writes at most `maxLen - pos` characters. -/
theorem length_sanitizeAux (maxLen : Nat) (l : List Char) :
    ∀ pos, (sanitizeAux maxLen l pos).length ≤ maxLen - pos := by
  induction l with
  | nil => intro pos; simp [sanitizeAux]
  | cons ch cs ih =>
      intro pos
      simp only [sanitizeAux]
      split_ifs with hpos
      · cases hk : keepChar ch with
        | none => exact (ih pos).trans (by omega)
        | some d =>
            simp only [List.length_cons]
            have := ih (pos + 1)
            omega
      · simp

/-- Members survive the trailing-hyphen strip. -/
theorem mem_stripTrailingHyphens (l : List Char) (x : Char)
    (h : x ∈ stripTrailingHyphens l) : x ∈ l := by
  unfold stripTrailingHyphens at h
  rw [List.mem_reverse] at h
  have := (List.dropWhile_sublist _).subset h
  rwa [List.mem_reverse] at this

/-- The trailing-hyphen strip never lengthens the list. -/
theorem length_stripTrailingHyphens (l : List Char) :
    (stripTrailingHyphens l).length ≤ l.length := by
  unfold stripTrailingHyphens
  rw [List.length_reverse]
  exact ((List.dropWhile_sublist _).length_le).trans
    (by rw [List.length_reverse])

/-- The head surviving a `dropWhile` falsifies the predicate. -/
theorem head?_dropWhile_false (p : Char → Bool) (l : List Char) :
    ∀ ch, (l.dropWhile p).head? = some ch → p ch = false := by
  induction l with
  | nil => intro ch h; cases h
  | cons c cs ih =>
      intro ch h
      rw [List.dropWhile_cons] at h
      split_ifs at h with hp
      · exact ih ch h
      · injection h with hch
        subst hch
        simpa using hp

/-- After the strip the last character is not a hyphen. -/
theorem getLast_stripTrailingHyphens (l : List Char) (ch : Char)
    (h : (stripTrailingHyphens l).getLast? = some ch) : ¬ ch = '-' := by
  unfold stripTrailingHyphens at h
  rw [List.getLast?_reverse] at h
  have := head?_dropWhile_false _ _ ch h
  simpa using this

/-- The sixteen hexadecimal digit characters are alphanumeric. -/
theorem hexDigitChar_alnum : ∀ m, m < 16 →
    (hexDigitChar m).isAlphanum = true := by
  decide

/-- Every character emitted by the hex expansion is alphanumeric. -/
theorem toHexAux_alnum : ∀ (fuel n : Nat) (d : Char),
    d ∈ toHexAux fuel n → d.isAlphanum = true := by
  intro fuel
  induction fuel with
  | zero => intro n d hd; cases hd
  | succ fuel ih =>
      intro n d hd
      simp only [toHexAux] at hd
      split_ifs at hd with hn
      · cases hd
      · rcases List.mem_append.mp hd with hmem | hmem
        · exact ih _ d hmem
        · rcases List.mem_singleton.mp hmem with rfl
          exact hexDigitChar_alnum _ (Nat.mod_lt _ (by omega))

/-- The hex expansion of `n < 16 ^ k` has at most `k` digits. -/
theorem toHexAux_length : ∀ (fuel n k : Nat), n < 16 ^ k →
    (toHexAux fuel n).length ≤ k := by
  intro fuel
  induction fuel with
  | zero => intro n k _; simp [toHexAux]
  | succ fuel ih =>
      intro n k hn
      simp only [toHexAux]
      split_ifs with h0
      · simp
      · cases k with
        | zero =>
            simp only [pow_zero] at hn
            omega
        | succ k =>
            rw [List.length_append, List.length_singleton]
            have hdiv : n / 16 < 16 ^ k := by
              rw [Nat.div_lt_iff_lt_mul (by omega)]
              calc n < 16 ^ (k + 1) := hn
                _ = 16 ^ k * 16 := by ring
            have := ih (n / 16) k hdiv
            omega

/-- The full hex expansion is never empty. -/
theorem toHexUpper_ne_nil (n : Nat) : ¬ toHexUpper n = [] := by
  unfold toHexUpper
  split_ifs with h0
  · simp
  · simp only [toHexAux]
    rw [if_neg h0]
    simp

/-- Every character of the full hex expansion is alphanumeric. -/
theorem toHexUpper_alnum (n : Nat) (d : Char) (hd : d ∈ toHexUpper n) :
    d.isAlphanum = true := by
  unfold toHexUpper at hd
  split_ifs at hd with h0
  · rcases List.mem_singleton.mp hd with rfl
    decide
  · exact toHexAux_alnum _ _ d hd

/-- For a 32-bit chip id the hex expansion has at most eight digits. -/
theorem toHexUpper_length (n : Nat) (hn : n < 4294967296) :
    (toHexUpper n).length ≤ 8 := by
  unfold toHexUpper
  split_ifs with h0
  · simp
  · exact toHexAux_length _ n 8 (by norm_num at hn ⊢; omega)

@[simp] theorem toList_string_mk (l : List Char) :
    (String.mk l).toList = l := rfl

/-- A list whose `getLast?` is `some x` contains `x`. -/
theorem mem_of_getLast?_eq (l : List Char) (x : Char)
    (h : l.getLast? = some x) : x ∈ l := by
  obtain ⟨ys, rfl⟩ := List.getLast?_eq_some_iff.mp h
  simp

/-- The sanitization loop yields nothing when every character is dropped. -/
theorem sanitizeAux_nil_of_none (maxLen : Nat) (l : List Char)
    (h : ∀ ch ∈ l, keepChar ch = none) :
    ∀ pos, sanitizeAux maxLen l pos = [] := by
  induction l with
  | nil => intro pos; rfl
  | cons ch cs ih =>
      intro pos
      simp only [sanitizeAux]
      split_ifs with hpos
      · rw [h ch (List.mem_cons_self ch cs)]
        exact ih (fun x hx => h x (List.mem_cons_of_mem ch hx)) pos
      · rfl

/-- The fallback hostname is short, made of alphanumerics and hyphens, and
does not end with a hyphen. -/
theorem fallbackHostname_props (c : Nat) (hc : c < 4294967296) :
    (fallbackHostname c).toList.length ≤ WIFI_MAX_HOSTNAME_STRLEN ∧
      (∀ x ∈ (fallbackHostname c).toList, x.isAlphanum = true ∨ x = '-') ∧
      (∀ ch, (fallbackHostname c).toList.getLast? = some ch → ¬ ch = '-') := by
  have hhexlen := toHexUpper_length c hc
  have hhexne := toHexUpper_ne_nil c
  have hfull : ("OpenDTU-".toList ++ padLeftZeros 6 (toHexUpper c)).length
      ≤ WIFI_MAX_HOSTNAME_STRLEN := by
    rw [List.length_append]
    unfold padLeftZeros
    rw [List.length_append, List.length_replicate]
    have h8 : ("OpenDTU-".toList).length = 8 := by decide
    rw [h8]
    unfold WIFI_MAX_HOSTNAME_STRLEN
    omega
  have htake : ("OpenDTU-".toList ++ padLeftZeros 6 (toHexUpper c)).take
      WIFI_MAX_HOSTNAME_STRLEN
      = "OpenDTU-".toList ++ padLeftZeros 6 (toHexUpper c) :=
    List.take_of_length_le hfull
  unfold fallbackHostname
  rw [toList_string_mk, htake]
  refine ⟨by rw [← htake]; exact (List.length_take _ _).le.trans (by simp), ?_, ?_⟩
  · intro x hx
    rcases List.mem_append.mp hx with hx1 | hx2
    · have hOD : ∀ y ∈ "OpenDTU-".toList, y.isAlphanum = true ∨ y = '-' := by
        decide
      exact hOD x hx1
    · unfold padLeftZeros at hx2
      rcases List.mem_append.mp hx2 with hx3 | hx4
      · rcases List.eq_of_mem_replicate hx3 with rfl
        left
        decide
      · exact Or.inl (toHexUpper_alnum c x hx4)
  · intro ch hch
    obtain ⟨y, hy⟩ : ∃ y, (toHexUpper c).getLast? = some y := by
      cases hhex : (toHexUpper c).getLast? with
      | none => exact absurd (List.getLast?_eq_none_iff.mp hhex) hhexne
      | some y => exact ⟨y, rfl⟩
    have hlast : ("OpenDTU-".toList ++ padLeftZeros 6 (toHexUpper c)).getLast?
        = some y := by
      unfold padLeftZeros
      rw [List.getLast?_append, List.getLast?_append, hy]
      rfl
    rw [hlast] at hch
    have hy' : y = ch := by injection hch
    subst hy'
    have halnum := toHexUpper_alnum c y (mem_of_getLast?_eq _ y hy)
    intro hdash
    rw [hdash] at halnum
    exact absurd halnum (by decide)

/-- Claim C3: `getHostname` agrees with the spec's sanitization pipeline
(keep alphanumerics, map the seven separators to hyphens, drop the rest,
strip trailing hyphens, fall back to the default template when empty), and
in particular maps "My Router!!" to "My-Router", "abc_123" to "abc-123",
"---" to the default-template result, and any string of only dropped
characters to the default-template result. -/
theorem C3_hostname_sanitization :
    (∀ (s : String) (c : Nat), getHostname s c = hostnameSpec s c) ∧
      (∀ c, getHostname "My Router!!" c = "My-Router") ∧
      (∀ c, getHostname "abc_123" c = "abc-123") ∧
      (∀ c, getHostname "---" c = fallbackHostname c) ∧
      (∀ (s : String) (c : Nat), (∀ ch ∈ s.toList, keepChar ch = none) →
        getHostname s c = fallbackHostname c) := by
  refine ⟨?_, fun c => rfl, fun c => rfl, fun c => rfl, ?_⟩
  · intro s c
    unfold getHostname hostnameSpec
    dsimp only
    rw [sanitizeAux_eq_filterMap WIFI_MAX_HOSTNAME_STRLEN _ 0
      (by rw [Nat.add_zero, List.length_take]; exact Nat.min_le_left _ _)]
    rw [show keepChar = specKeep from funext keepChar_eq_specKeep]
  · intro s c h
    unfold getHostname
    dsimp only
    rw [sanitizeAux_nil_of_none WIFI_MAX_HOSTNAME_STRLEN _
      (fun ch hch => h ch (List.take_subset _ _ hch)) 0]
    rw [if_pos (show stripTrailingHyphens [] = [] from rfl)]

/-- Witness for C3: a string of only dropped characters falls back to the
default template. -/
theorem C3_hostname_sanitization_witness :
    getHostname "%%%" 4779 = fallbackHostname 4779 :=
  C3_hostname_sanitization.2.2.2.2 "%%%" 4779 (by decide)

/-- Claim C10: for every input and 32-bit chip id, the hostname is at most
`WIFI_MAX_HOSTNAME_STRLEN` characters, consists only of alphanumeric
characters and hyphens, and never ends with a hyphen. -/
theorem C10_hostname_shape (s : String) (c : Nat) (hc : c < 4294967296) :
    (getHostname s c).toList.length ≤ WIFI_MAX_HOSTNAME_STRLEN ∧
      (∀ x ∈ (getHostname s c).toList, x.isAlphanum = true ∨ x = '-') ∧
      (∀ ch, (getHostname s c).toList.getLast? = some ch → ¬ ch = '-') := by
  unfold getHostname
  dsimp only
  split_ifs with hnil
  · exact fallbackHostname_props c hc
  · rw [toList_string_mk]
    refine ⟨?_, ?_, ?_⟩
    · refine (length_stripTrailingHyphens _).trans ?_
      refine (length_sanitizeAux _ _ 0).trans ?_
      omega
    · intro x hx
      obtain ⟨ch, hch⟩ := mem_sanitizeAux _ _ 0 x
        (mem_stripTrailingHyphens _ x hx)
      exact keepChar_some_alnum_or_hyphen ch x hch
    · intro ch hch
      exact getLast_stripTrailingHyphens _ ch hch

/-- Witness for C10 at a concrete input and chip id. -/
theorem C10_hostname_shape_witness :
    (getHostname "My Router!!" 4779).toList.length ≤ WIFI_MAX_HOSTNAME_STRLEN ∧
      (∀ x ∈ (getHostname "My Router!!" 4779).toList,
        x.isAlphanum = true ∨ x = '-') ∧
      (∀ ch, (getHostname "My Router!!" 4779).toList.getLast? = some ch →
        ¬ ch = '-') :=
  C10_hostname_shape "My Router!!" 4779 (by decide)

/-- Claim C8: an empty configured SSID makes `applyConfig` short-circuit the
WiFi configuration entirely — only the hostname call happens, no station
connect attempt and no address application, and no failure is reported; and
`onEvent` with a null callback fails fast, returning false with the
subscription list unchanged. -/
theorem C8_empty_ssid_and_null_callback :
    (∀ (config : WifiConfig) (cur : WifiCred), config.ssid = "" →
        applyConfigActions config cur = [ConfigAction.setHostname]) ∧
      (∀ (event : network_event) (subs : List Subscription),
        onEvent none event subs = (false, subs)) := by
  constructor
  · intro config cur h
    simp [applyConfigActions, h]
  · intro event subs
    rfl

/-- Witness for C8 at concrete inputs. -/
theorem C8_empty_ssid_and_null_callback_witness :
    applyConfigActions ⟨"", "pw"⟩ ⟨"old", "oldpw"⟩ = [ConfigAction.setHostname] ∧
      onEvent none network_event.NETWORK_CONNECTED [] = (false, []) :=
  ⟨C8_empty_ssid_and_null_callback.1 ⟨"", "pw"⟩ ⟨"old", "oldpw"⟩ rfl,
   C8_empty_ssid_and_null_callback.2 network_event.NETWORK_CONNECTED []⟩

end OpenDTU
